import Mathlib

/-! Session and credential lifecycle of the loan-management client.

A shallow embedding of `src/context/AuthContext.js` and of the request layer
`src/api/authApi.js` it calls, followed by theorems about them.

Conventions of the embedding

* A JavaScript value that reaches the code from a form or from a JSON response
  is a `JsValue` (the JSON scalars, `undefined`, and arrays of strings).
* `localStorage` is a total map from keys to optional strings.
* The remote backend is a parameter (`Backend`): one function per endpoint,
  from what the request carries to the outcome of the axios call.
* `Date.now()`, `JSON.stringify` and the `toUpperCase` and `toLowerCase` of
  strings are parameters (`Env`); `JSON.parse` is a parameter of the
  restoration.
* A function of the provider that reads `state` reads the state of the render
  that created the function: that state is a parameter of its own, beside the
  world at the call.
* The dynamic `import()` of the request layer succeeds, and `setItem` never
  runs out of quota.
* An `async` operation is the function from the world before the call to the
  world after its promise has settled, paired with the value it resolves to.
  The world records the reducer state, the storage, the requests issued and
  the actions dispatched, in order.
-/

namespace Js

/-- An integer number that JavaScript prints in full, digit by digit: one of
magnitude below `10 ^ 21`. -/
abbrev JsInt := { n : Int // n.natAbs < 10 ^ 21 }

/-- JSON scalars (of the numbers, the integers of `JsInt`), `undefined` and
arrays of strings, the values a field of a response may hold. -/
inductive JsValue where
  | undefined
  | null
  | bool (b : Bool)
  | num (n : JsInt)
  | str (s : String)
  | array (items : List String)
  deriving DecidableEq, Repr, Inhabited

/-- Truthiness of a value, as tested by `if (v)`, `v && w` and `v || w`. -/
def truthy : JsValue → Bool
  | .undefined => false
  | .null => false
  | .bool b => b
  | .num n => n.val != 0
  | .str s => s != ""
  | .array _ => true

/-- The value of `a || b`. -/
def or (a b : JsValue) : JsValue :=
  if truthy a then a else b

/-- String conversion of a value, as done by a template literal and by
`.toString()` on the values that have that method; a number of `JsInt` is
printed in full, in decimal. -/
def toStr : JsValue → String
  | .undefined => "undefined"
  | .null => "null"
  | .bool true => "true"
  | .bool false => "false"
  | .num n => toString n.val
  | .str s => s
  | .array items => ",".intercalate items

/-- Upper-casing of one character: the letters `a`..`z`. -/
def upperChar (c : Char) : Char :=
  if 97 ≤ c.toNat ∧ c.toNat ≤ 122 then Char.ofNat (c.toNat - 32) else c

/-- Lower-casing of one character: the letters `A`..`Z`. -/
def lowerChar (c : Char) : Char :=
  if 65 ≤ c.toNat ∧ c.toNat ≤ 90 then Char.ofNat (c.toNat + 32) else c

/-- The upper-casing of the ASCII letters, other characters kept: what
`s.toUpperCase()` gives on a string of ASCII characters. -/
def toUpperCase (s : String) : String :=
  ⟨s.data.map upperChar⟩

/-- The lower-casing of the ASCII letters, other characters kept: what
`s.toLowerCase()` gives on a string of ASCII characters. -/
def toLowerCase (s : String) : String :=
  ⟨s.data.map lowerChar⟩

/-- The characters `trim` removes: the white space and line terminators of
ECMAScript. -/
def isWhiteSpace (c : Char) : Bool :=
  c.toNat == 9 || c.toNat == 10 || c.toNat == 11 || c.toNat == 12 || c.toNat == 13 ||
    c.toNat == 32 || c.toNat == 160 || c.toNat == 5760 ||
    (8192 ≤ c.toNat && c.toNat ≤ 8202) || c.toNat == 8232 || c.toNat == 8233 ||
    c.toNat == 8239 || c.toNat == 8287 || c.toNat == 12288 || c.toNat == 65279

/-- `s.trim()`. -/
def trim (s : String) : String :=
  ⟨((s.data.dropWhile isWhiteSpace).reverse.dropWhile isWhiteSpace).reverse⟩

/-- Whether a value is an array. -/
def isArray : JsValue → Bool
  | .array _ => true
  | _ => false

end Js

open Js

namespace AuthApi

/-- The `data` of an axios response: a scalar (a plain string body, a number,
`null`, or `undefined` when there is no body) or an object, of which only the
`message` field is read (`undefined` when the object has none). -/
inductive Body where
  | scalar (v : JsValue)
  | object (message : JsValue)
  deriving DecidableEq, Repr, Inhabited

/-- What an axios call rejects with: `nullish` for `null`/`undefined`,
otherwise an object with an optional `response` (`none` when the request got no
response) and its own `message`. -/
inductive RawError where
  | nullish
  | error (response : Option Body) (message : JsValue)
  deriving DecidableEq, Repr, Inhabited

/-- `err?.response?.data?.message`. -/
def dataMessage : RawError → JsValue
  | .error (some (.object message)) _ => message
  | _ => .undefined

/-- `typeof err?.response?.data === 'string' ? err.response.data : null`. -/
def dataString : RawError → JsValue
  | .error (some (.scalar (.str s))) _ => .str s
  | _ => .null

/-- `err?.message`. -/
def ownMessage : RawError → JsValue
  | .error _ message => message
  | .nullish => .undefined

/-- `toError`: the message of the `Error` it builds (`new Error(m)` converts
`m` to a string). -/
def toError (err : RawError) (fallback : JsValue) : String :=
  toStr (Js.or (Js.or (Js.or (Js.or (dataMessage err) (dataString err)) (ownMessage err))
    fallback) (.str "Request failed"))

/-- The fields of a user object in a response that the client reads; a field
the object lacks is `undefined`. -/
structure BackendUser where
  id : JsValue
  email : JsValue
  role : JsValue
  name : JsValue
  phone : JsValue
  createdAt : JsValue
  deriving DecidableEq, Repr, Inhabited

/-- The `res.data` of an endpoint returning a user: `null`, `undefined` (empty
body), or an object. A body that is a string, number or boolean reads as an
object without any of the fields. -/
inductive Payload where
  | null
  | undefined
  | object (u : BackendUser)
  deriving DecidableEq, Repr, Inhabited

/-- The body posted to `/api/auth/register`. -/
structure RegisterBody where
  email : JsValue
  password : JsValue
  role : JsValue
  name : JsValue
  phone : JsValue
  deriving DecidableEq, Repr, Inhabited

/-- The remote backend seen through axios: for each endpoint, the outcome of
the call (`ok data` when the promise resolves, `error err` when it rejects) as
a function of what the request carries. -/
structure Backend where
  postRegister : RegisterBody → Except RawError Payload
  getMe : (username password : String) → Except RawError Payload
  putProfile : (email name phone : JsValue) → (username password : String) →
    Except RawError Payload
  postChangePassword : (currentPassword newPassword : String) →
    (username password : String) → Except RawError Unit

/-- `meApi`: resolves to `res.data` or throws `toError(err, 'Unauthorized')`. -/
def meApi (api : Backend) (email password : String) : Except String Payload :=
  match api.getMe email password with
  | .ok data => .ok data
  | .error err => .error (toError err (.str "Unauthorized"))

/-- `changePasswordApi`: resolves (the text is not used) or throws
`toError(err, 'Failed to change password')`. -/
def changePasswordApi (api : Backend) (currentPassword newPassword : String)
    (authEmail authPassword : String) : Except String Unit :=
  match api.postChangePassword currentPassword newPassword authEmail authPassword with
  | .ok _ => .ok ()
  | .error err => .error (toError err (.str "Failed to change password"))

/-- `registerApi`: posts `{ email, password, role, name, phone }` and resolves
to `res.data`, or throws `toError(err, 'Registration failed')`. -/
def registerApi (api : Backend) (body : RegisterBody) : Except String Payload :=
  match api.postRegister
      { email := body.email, password := body.password, role := body.role,
        name := body.name, phone := body.phone } with
  | .ok data => .ok data
  | .error err => .error (toError err (.str "Registration failed"))

/-- `updateProfileApi`: resolves to `res.data` or throws
`toError(err, 'Failed to update profile')`. -/
def updateProfileApi (api : Backend) (email name phone : JsValue)
    (authEmail authPassword : String) : Except String Payload :=
  match api.putProfile email name phone authEmail authPassword with
  | .ok data => .ok data
  | .error err => .error (toError err (.str "Failed to update profile"))

end AuthApi

namespace CustomerApi

open AuthApi in
/-- `toError` of `src/api/customerApi.js`, which repeats the one of
`authApi.js`. -/
def toError (err : RawError) (fallback : JsValue) : String :=
  toStr (Js.or (Js.or (Js.or (Js.or (dataMessage err) (dataString err)) (ownMessage err))
    fallback) (.str "Request failed"))

end CustomerApi

open AuthApi

namespace AuthContext

/-- The `normalizedUser` object built by `login`, `register` and
`updateProfile`: `role` is always a string, the other fields are whatever the
backend sent (or the default put in their place). -/
structure Identity where
  id : JsValue
  email : JsValue
  role : String
  name : JsValue
  phone : JsValue
  createdAt : JsValue
  deriving DecidableEq, Repr, Inhabited

/-- The reducer state `{user, isAuthenticated, loading, error}`; `none` is
`null`. -/
structure AuthState where
  user : Option Identity
  isAuthenticated : Bool
  loading : Bool
  error : Option String
  deriving DecidableEq, Repr, Inhabited

/-- `initialState`. -/
def initialState : AuthState :=
  { user := none, isAuthenticated := false, loading := true, error := none }

/-- The actions of `AUTH_ACTIONS` with their payloads, and `OTHER` for an
action object whose `type` is none of the six (the `default` branch). -/
inductive Action where
  | LOGIN_START
  | LOGIN_SUCCESS (payload : Option Identity)
  | LOGIN_FAILURE (payload : String)
  | LOGOUT
  | CLEAR_ERROR
  | SET_LOADING (payload : Bool)
  | OTHER (type : String)
  deriving DecidableEq, Repr, Inhabited

/-- `authReducer`. -/
def authReducer (state : AuthState) : Action → AuthState
  | .LOGIN_START => { state with loading := true, error := none }
  | .LOGIN_SUCCESS payload =>
      { state with user := payload, isAuthenticated := true, loading := false, error := none }
  | .LOGIN_FAILURE payload =>
      { state with user := none, isAuthenticated := false, loading := false, error := some payload }
  | .LOGOUT =>
      { state with user := none, isAuthenticated := false, loading := false, error := none }
  | .CLEAR_ERROR => { state with error := none }
  | .SET_LOADING payload => { state with loading := payload }
  | .OTHER _ => state

/-- The content of `localStorage`: `none` for a key that is not set. -/
abbrev Storage := String → Option String

/-- `localStorage.getItem(key)`. -/
def getItem (storage : Storage) (key : String) : Option String :=
  storage key

/-- `localStorage.setItem(key, value)`. -/
def setItem (storage : Storage) (key value : String) : Storage :=
  fun k => if k = key then some value else storage k

/-- `localStorage.removeItem(key)`. -/
def removeItem (storage : Storage) (key : String) : Storage :=
  fun k => if k = key then none else storage k

/-- A call handed to axios by the request layer. -/
inductive Request where
  | postRegister (body : RegisterBody)
  | getMe (username password : String)
  | putProfile (email name phone : JsValue) (username password : String)
  | postChangePassword (currentPassword newPassword : String) (username password : String)
  deriving DecidableEq, Repr, Inhabited

/-- What the provider's operations read and change: the reducer state, the
storage, and the trace of requests issued and of actions dispatched. -/
structure World where
  state : AuthState
  storage : Storage
  requests : List Request
  dispatched : List Action

/-- What the operations take from outside the repository: `Date.now()`,
`JSON.stringify` on a `normalizedUser`, and the `toUpperCase` and
`toLowerCase` of strings, which follow the Unicode case mappings. -/
structure Env where
  now : JsInt
  stringify : Identity → String
  toUpperCase : String → String
  toLowerCase : String → String

/-- `dispatch(action)`: the reducer applied to the current state. -/
def dispatch (w : World) (action : Action) : World :=
  { w with state := authReducer w.state action, dispatched := w.dispatched ++ [action] }

/-- Records a request handed to axios. -/
def issue (w : World) (r : Request) : World :=
  { w with requests := w.requests ++ [r] }

/-- The pair `{ email, password }` returned by `getCredentials`. -/
structure Credentials where
  email : String
  password : String
  deriving DecidableEq, Repr, Inhabited

/-- `setCredentials`. -/
def setCredentials (storage : Storage) (email password : JsValue) : Storage :=
  if truthy email && truthy password then
    setItem (setItem storage "basic_email" (toStr email)) "basic_password" (toStr password)
  else storage

/-- `getCredentials`; `none` is `null`. -/
def getCredentials (storage : Storage) : Option Credentials :=
  match getItem storage "basic_email", getItem storage "basic_password" with
  | some email, some password =>
      if email != "" && password != "" then some { email := email, password := password }
      else none
  | _, _ => none

/-- The argument of `login`: `selectedRole` is `none` when the caller gives
none. -/
structure LoginArgs where
  email : String
  password : String
  selectedRole : Option String
  deriving DecidableEq, Repr, Inhabited

/-- The object an operation resolves to: `{ success: true, user }`,
`{ success: true }` or `{ success: false, error }`. -/
structure Outcome where
  success : Bool
  user : Option Identity
  error : Option String
  deriving DecidableEq, Repr, Inhabited

/-- The message of the `TypeError` thrown on reading a property of `null` or
`undefined` (the wording of V8). -/
def typeErrorMessage (ofNull : Bool) (property : String) : String :=
  "Cannot read properties of " ++ (if ofNull then "null" else "undefined") ++
    " (reading '" ++ property ++ "')"

/-- Reading `user.property`, the first read of a block: throws on `null` and
`undefined`, otherwise gives the object. -/
def readUser (user : Payload) (property : String) : Except String BackendUser :=
  match user with
  | .null => .error (typeErrorMessage true property)
  | .undefined => .error (typeErrorMessage false property)
  | .object u => .ok u

/-- The message of the error thrown by the role check of `login`. -/
def accessDenied (role : JsValue) (selectedRole : String) : String :=
  "Access denied. Your account role is " ++ toStr role ++ ", but you selected " ++
    selectedRole ++ "."

/-- The role check of `login` (lines 123-128): `ok` when it lets the login go
on, the thrown message otherwise. -/
def roleCheck (env : Env) (user : Payload) (selectedRole : Option String) :
    Except String Unit :=
  match selectedRole with
  | none => .ok ()
  | some sel =>
      if sel != "" then
        let selected := env.toUpperCase sel
        match readUser user "role" with
        | .error m => .error m
        | .ok u =>
            if u.role ≠ .str selected ∧ u.role ≠ .str ("ROLE_" ++ selected) then
              .error (accessDenied u.role sel)
            else .ok ()
      else .ok ()

/-- The `normalizedUser` of `login` (lines 131-138). -/
def normalizeLogin (env : Env) (u : BackendUser) : Identity :=
  { id := u.id
    email := u.email
    role := env.toLowerCase (toStr (Js.or u.role (.str "")))
    name := Js.or u.name (.str "")
    phone := Js.or u.phone (.str "")
    createdAt := Js.or u.createdAt (.num env.now) }

/-- The `try` block of `login` after the request has been issued: the storage
it leaves and the identity, or the message of what it throws. -/
def loginTry (env : Env) (api : Backend) (credentials : LoginArgs) (storage : Storage) :
    Except String (Storage × Identity) :=
  match meApi api credentials.email credentials.password with
  | .error m => .error m
  | .ok user =>
      match roleCheck env user credentials.selectedRole with
      | .error m => .error m
      | .ok _ =>
          match readUser user "id" with
          | .error m => .error m
          | .ok u =>
              let normalizedUser := normalizeLogin env u
              let s1 := setItem storage "user" (env.stringify normalizedUser)
              let s2 := setItem s1 "token" "basic"
              let s3 := setCredentials s2 (.str credentials.email) (.str credentials.password)
              .ok (s3, normalizedUser)

/-- `login`. -/
def login (env : Env) (api : Backend) (credentials : LoginArgs) (w : World) :
    World × Outcome :=
  let w1 := issue (dispatch w .LOGIN_START) (.getMe credentials.email credentials.password)
  match loginTry env api credentials w1.storage with
  | .ok (storage, normalizedUser) =>
      (dispatch { w1 with storage := storage } (.LOGIN_SUCCESS (some normalizedUser)),
        { success := true, user := some normalizedUser, error := none })
  | .error message =>
      (dispatch w1 (.LOGIN_FAILURE message),
        { success := false, user := none, error := some message })

/-- `logout`. -/
def logout (w : World) : World :=
  let s1 := removeItem w.storage "user"
  let s2 := removeItem s1 "token"
  let s3 := removeItem s2 "basic_email"
  let s4 := removeItem s3 "basic_password"
  dispatch { w with storage := s4 } .LOGOUT

/-- `changePassword`. -/
def changePassword (api : Backend) (currentPassword newPassword : String) (w : World) :
    World × Outcome :=
  let w1 := dispatch w (.SET_LOADING true)
  match getCredentials w1.storage with
  | none =>
      (dispatch w1 (.SET_LOADING false),
        { success := false, user := none, error := some "Please re-login to change password" })
  | some creds =>
      let w2 := issue w1 (.postChangePassword currentPassword newPassword creds.email creds.password)
      match changePasswordApi api currentPassword newPassword creds.email creds.password with
      | .error message =>
          (dispatch w2 (.SET_LOADING false),
            { success := false, user := none, error := some message })
      | .ok _ =>
          let storage := setCredentials w2.storage (.str creds.email) (.str newPassword)
          (dispatch { w2 with storage := storage } (.SET_LOADING false),
            { success := true, user := none, error := none })

/-- The names in `AUTH_ACTIONS`. -/
def AUTH_ACTIONS : List String :=
  ["LOGIN_START", "LOGIN_SUCCESS", "LOGIN_FAILURE", "LOGOUT", "CLEAR_ERROR", "SET_LOADING"]

/-- The fields of the `userData` given to `register` that the code reads, and
the `role` a caller may put there, which it does not read. -/
structure UserData where
  email : JsValue
  password : JsValue
  firstName : JsValue
  lastName : JsValue
  phone : JsValue
  role : JsValue
  deriving DecidableEq, Repr, Inhabited

/-- The object `register` hands to `registerApi` (lines 167-173). -/
def registerBody (userData : UserData) : RegisterBody :=
  { email := userData.email
    password := userData.password
    role := .str "CUSTOMER"
    name := .str (trim (toStr (Js.or userData.firstName (.str "")) ++ " " ++
      toStr (Js.or userData.lastName (.str ""))))
    phone := Js.or userData.phone (.str "") }

/-- The `normalizedUser` of `register` (lines 174-180), which has no
`createdAt`. -/
def normalizeRegister (env : Env) (u : BackendUser) : Identity :=
  { id := u.id
    email := u.email
    role := env.toLowerCase (toStr (Js.or u.role (.str "")))
    name := Js.or u.name (.str "")
    phone := Js.or u.phone (.str "")
    createdAt := .undefined }

/-- `register`. -/
def register (env : Env) (api : Backend) (userData : UserData) (w : World) :
    World × Outcome :=
  let w1 := issue (dispatch w .LOGIN_START) (.postRegister (registerBody userData))
  match registerApi api (registerBody userData) with
  | .error message =>
      (dispatch w1 (.LOGIN_FAILURE message),
        { success := false, user := none, error := some message })
  | .ok created =>
      match readUser created "id" with
      | .error message =>
          (dispatch w1 (.LOGIN_FAILURE message),
            { success := false, user := none, error := some message })
      | .ok u =>
          (dispatch w1 (.SET_LOADING false),
            { success := true, user := some (normalizeRegister env u), error := none })

/-- The fields of the `updates` given to `updateProfile`. -/
structure ProfileUpdates where
  email : JsValue
  name : JsValue
  phone : JsValue
  deriving DecidableEq, Repr, Inhabited

/-- `state.user?.createdAt`. -/
def knownCreatedAt (state : AuthState) : JsValue :=
  match state.user with
  | some user => user.createdAt
  | none => .undefined

/-- The `normalizedUser` of `updateProfile` (lines 203-210); `state` is the
`state` of line 73 that the function called has captured: the state of the
render that created that function. -/
def normalizeUpdate (env : Env) (state : AuthState) (u : BackendUser) : Identity :=
  { id := u.id
    email := u.email
    role := env.toLowerCase (toStr (Js.or u.role (.str "")))
    name := Js.or u.name (.str "")
    phone := Js.or u.phone (.str "")
    createdAt := Js.or (knownCreatedAt state) (.num env.now) }

/-- `updateProfile`; `captured` is the state of the render that created the
function called, which line 209 reads, and `w` is the world at the call. -/
def updateProfile (env : Env) (api : Backend) (captured : AuthState)
    (updates : ProfileUpdates) (w : World) : World × Outcome :=
  let w1 := dispatch w (.SET_LOADING true)
  match getCredentials w1.storage with
  | none =>
      (dispatch w1 (.LOGIN_FAILURE "Please re-login to update profile"),
        { success := false, user := none, error := some "Please re-login to update profile" })
  | some creds =>
      let w2 := issue w1
        (.putProfile updates.email updates.name updates.phone creds.email creds.password)
      match updateProfileApi api updates.email updates.name updates.phone creds.email
          creds.password with
      | .error message =>
          (dispatch w2 (.LOGIN_FAILURE message),
            { success := false, user := none, error := some message })
      | .ok updated =>
          match readUser updated "id" with
          | .error message =>
              (dispatch w2 (.LOGIN_FAILURE message),
                { success := false, user := none, error := some message })
          | .ok u =>
              let normalizedUser := normalizeUpdate env captured u
              let storage := setItem w2.storage "user" (env.stringify normalizedUser)
              (dispatch { w2 with storage := storage } (.LOGIN_SUCCESS (some normalizedUser)),
                { success := true, user := some normalizedUser, error := none })

/-- The first action dispatched between two worlds, if any. -/
def firstDispatch (before after : World) : Option Action :=
  (after.dispatched.drop before.dispatched.length).head?

/-- The state right after the first dispatch of an operation that took
`before` to `after`. -/
def stateAfterFirstDispatch (before after : World) : Option AuthState :=
  (firstDispatch before after).map (authReducer before.state)

/-- The requests issued between two worlds. -/
def requestsIssued (before after : World) : List Request :=
  after.requests.drop before.requests.length

/-- The storage a successful `login` leaves. -/
def storageAfterLogin (env : Env) (credentials : LoginArgs) (u : BackendUser)
    (storage : Storage) : Storage :=
  setCredentials
    (setItem (setItem storage "user" (env.stringify (normalizeLogin env u))) "token" "basic")
    (.str credentials.email) (.str credentials.password)

/-- The state reached from `state` by dispatching `actions` in order. -/
def runActions (state : AuthState) (actions : List Action) : AuthState :=
  actions.foldl authReducer state

/-- An action other than a `LOGIN_SUCCESS` whose payload is `null`. -/
def carriesIdentity : Action → Bool
  | .LOGIN_SUCCESS none => false
  | _ => true

/-- Whether the role check lets a login with this payload and selected role go
on. -/
def roleAccepted (env : Env) (user : Payload) (selectedRole : Option String) : Bool :=
  match roleCheck env user selectedRole with
  | .ok _ => true
  | .error _ => false

/-- The rule of the specification for the role check: the selected role equals
the backend role ignoring letter case, or equals it ignoring letter case once a
leading `ROLE_` is removed from the backend role. -/
def specRoleMatch (env : Env) (role selectedRole : String) : Bool :=
  env.toUpperCase selectedRole == env.toUpperCase role ||
    ("ROLE_".data.isPrefixOf role.data &&
      env.toUpperCase selectedRole == env.toUpperCase ⟨role.data.drop 5⟩)

/-- Whether a selected role, put in upper case, begins with `ROLE_`. -/
def selectedHasMarker (env : Env) : Option String → Bool
  | some e => "ROLE_".data.isPrefixOf (env.toUpperCase e).data
  | none => false

/-- `clearError`. -/
def clearError (w : World) : World :=
  dispatch w .CLEAR_ERROR

/-- `checkAuthStatus`, the restoration run when the provider mounts; `parse`
is `JSON.parse` on the persisted record: `ok none` when it gives `null`,
`error` when it throws. -/
def checkAuthStatus (parse : String → Except String (Option Identity)) (w : World) : World :=
  match getItem w.storage "user", getItem w.storage "token" with
  | some userData, some token =>
      if userData != "" && token != "" then
        match parse userData with
        | .ok user => dispatch w (.LOGIN_SUCCESS user)
        | .error _ => dispatch w (.SET_LOADING false)
      else dispatch w (.SET_LOADING false)
  | _, _ => dispatch w (.SET_LOADING false)

/-! ### Concrete data for the examples -/

/-- A quoted string, for strings without characters that JSON escapes. -/
def quote (s : String) : String :=
  "\"" ++ s ++ "\""

/-- One `"key":value` member, or nothing for `undefined`. -/
def member (key : String) : JsValue → List String
  | .undefined => []
  | .null => [quote key ++ ":null"]
  | .bool b => [quote key ++ ":" ++ toStr (.bool b)]
  | .num n => [quote key ++ ":" ++ toStr (.num n)]
  | .str s => [quote key ++ ":" ++ quote s]
  | .array items => [quote key ++ ":[" ++ ",".intercalate (items.map quote) ++ "]"]

/-- The serializer of the examples: `JSON.stringify` on an identity whose
strings hold no character that JSON escapes. -/
def sampleStringify (u : Identity) : String :=
  "\x7b" ++ ",".intercalate (member "id" u.id ++ member "email" u.email ++
    member "role" (.str u.role) ++ member "name" u.name ++ member "phone" u.phone ++
    member "createdAt" u.createdAt) ++ "\x7d"

/-- The time of the examples. -/
def sampleNow : JsInt :=
  ⟨1700000000000, by decide⟩

/-- The id of the user of the examples. -/
def sampleId : JsInt :=
  ⟨7, by decide⟩

/-- The environment of the examples; its case maps are those of the ASCII
letters, which is what the engine's give on the ASCII strings of the
examples. -/
def sampleEnv : Env :=
  { now := sampleNow, stringify := sampleStringify, toUpperCase := Js.toUpperCase,
    toLowerCase := Js.toLowerCase }

/-- A later time of the examples. -/
def laterNow : JsInt :=
  ⟨1700000999000, by decide⟩

/-- The environment of the examples at the later time. -/
def laterEnv : Env :=
  { sampleEnv with now := laterNow }

/-- A user object as the backend of the examples returns it. -/
def sampleUser (role : JsValue) : BackendUser :=
  { id := .num sampleId, email := .str "a@b.com", role := role, name := .str "Asha",
    phone := .undefined, createdAt := .undefined }

/-- A backend that answers every `/me` request with `sampleUser role`, accepts
every password change, and rejects the other requests. -/
def sampleBackend (role : JsValue) : Backend :=
  { postRegister := fun _ => .error .nullish
    getMe := fun _ _ => .ok (.object (sampleUser role))
    putProfile := fun _ _ _ _ _ => .error .nullish
    postChangePassword := fun _ _ _ _ => .ok () }

/-- A backend that rejects every request with the given backend message. -/
def rejectingBackend (message : String) : Backend :=
  { postRegister := fun _ => .error (.error (some (.object (.str message))) .undefined)
    getMe := fun _ _ => .error (.error (some (.object (.str message))) .undefined)
    putProfile := fun _ _ _ _ _ => .error (.error (some (.object (.str message))) .undefined)
    postChangePassword := fun _ _ _ _ =>
      .error (.error (some (.object (.str message))) .undefined) }

/-- A storage with no key set. -/
def emptyStorage : Storage :=
  fun _ => none

/-- The world of a freshly mounted provider over an empty storage. -/
def freshWorld : World :=
  { state := initialState, storage := emptyStorage, requests := [], dispatched := [] }

/-- The world after an earlier login of `a@b.com` with password `old`. -/
def loggedInWorld : World :=
  (login sampleEnv (sampleBackend (.str "CUSTOMER"))
    { email := "a@b.com", password := "old", selectedRole := none } freshWorld).1

/-- A backend that creates every account and accepts every profile update,
answering both with `payload`, and rejects the other requests. -/
def profileBackend (payload : Payload) : Backend :=
  { postRegister := fun _ => .ok payload
    getMe := fun _ _ => .error .nullish
    putProfile := fun _ _ _ _ _ => .ok payload
    postChangePassword := fun _ _ _ _ => .error .nullish }

/-- A registration form as filled in, with a `role` of the caller's. -/
def sampleUserData (role : JsValue) : UserData :=
  { email := .str "a@b.com", password := .str "pw", firstName := .str "Asha",
    lastName := .str "Rao", phone := .undefined, role := role }

/-- The world after a login of `a@b.com` and then a second login that the
backend rejects: an error is held and the Vault still loads the first pair. -/
def staleErrorWorld : World :=
  (login sampleEnv (rejectingBackend "Bad credentials")
    { email := "a@b.com", password := "typo", selectedRole := none } loggedInWorld).1

/-- The parser of the examples: `JSON.parse` on the record the examples store
and on `null`, throwing on any other text. -/
def sampleParse (text : String) : Except String (Option Identity) :=
  if text = "null" then .ok none
  else if text = sampleStringify (normalizeLogin sampleEnv (sampleUser (.str "CUSTOMER"))) then
    .ok (some (normalizeLogin sampleEnv (sampleUser (.str "CUSTOMER"))))
  else .error "Unexpected token"

/-- The world of a provider mounted over the storage an earlier login left. -/
def reloadedWorld : World :=
  { freshWorld with storage := loggedInWorld.storage }

end AuthContext

namespace CustomerApi

open AuthContext in
/-- `getStoredCredentials` of `src/api/customerApi.js`; `none` is `null`. -/
def getStoredCredentials (storage : Storage) : Option Credentials :=
  match getItem storage "basic_email", getItem storage "basic_password" with
  | some email, some password =>
      if email != "" && password != "" then some { email := email, password := password }
      else none
  | _, _ => none

end CustomerApi

namespace LoanStatus

/-- `APPLICATION_STATUS.PENDING`. -/
def PENDING : String := "PENDING"

/-- `APPLICATION_STATUS.APPROVED`. -/
def APPROVED : String := "APPROVED"

/-- `APPLICATION_STATUS.REJECTED`. -/
def REJECTED : String := "REJECTED"

/-- `APPLICATION_STATUS.UNDER_REVIEW`. -/
def UNDER_REVIEW : String := "UNDER_REVIEW"

/-- `APPLICATION_STATUS.SUBMITTED`. -/
def SUBMITTED : String := "submitted"

/-- `APPLICATION_STATUS.UNDER_MAKER_REVIEW`. -/
def UNDER_MAKER_REVIEW : String := "under_maker_review"

/-- `APPLICATION_STATUS.MAKER_APPROVED`. -/
def MAKER_APPROVED : String := "maker_approved"

/-- `APPLICATION_STATUS.MAKER_REJECTED`. -/
def MAKER_REJECTED : String := "maker_rejected"

/-- `APPLICATION_STATUS.UNDER_CHECKER_REVIEW`. -/
def UNDER_CHECKER_REVIEW : String := "under_checker_review"

/-- `APPLICATION_STATUS.FINAL_APPROVED`. -/
def FINAL_APPROVED : String := "final_approved"

/-- `APPLICATION_STATUS.FINAL_REJECTED`. -/
def FINAL_REJECTED : String := "final_rejected"

/-- `status || 'Unknown'`, the `default` branch of `getStatusLabel`. -/
def rawOrUnknown : Option String → String
  | some status => if status != "" then status else "Unknown"
  | none => "Unknown"

/-- `getStatusLabel` of `src/pages/customer/LoanStatus.js`; `none` is a status
that is `null` or `undefined`, for which `status?.toUpperCase()` is
`undefined` and matches no `case`. The status is put in upper case by the map
of the ASCII letters, which is exact on statuses written in ASCII, as those
of `APPLICATION_STATUS` are. -/
def getStatusLabel (status : Option String) : String :=
  match status.map toUpperCase with
  | none => rawOrUnknown status
  | some key =>
      if key = PENDING ∨ key = SUBMITTED then "Submitted"
      else if key = UNDER_REVIEW ∨ key = UNDER_MAKER_REVIEW then "Under Review"
      else if key = MAKER_APPROVED then "Approved by Officer"
      else if key = MAKER_REJECTED then "Rejected by Officer"
      else if key = UNDER_CHECKER_REVIEW then "Final Review"
      else if key = APPROVED ∨ key = FINAL_APPROVED then "Approved"
      else if key = REJECTED ∨ key = FINAL_REJECTED then "Rejected"
      else rawOrUnknown status

/-- The legacy status values kept in `APPLICATION_STATUS`, each with the label
its `case` returns. -/
def legacyLabels : List (String × String) :=
  [(SUBMITTED, "Submitted"), (UNDER_MAKER_REVIEW, "Under Review"),
    (MAKER_APPROVED, "Approved by Officer"), (MAKER_REJECTED, "Rejected by Officer"),
    (UNDER_CHECKER_REVIEW, "Final Review"), (FINAL_APPROVED, "Approved"),
    (FINAL_REJECTED, "Rejected")]

/-- The fields of a loan application that `detectStatusChanges` reads. The
types of the values are parameters: `===` on them is equality, as it is on
strings, numbers and booleans. -/
structure Application (ι σ τ : Type) where
  id : ι
  status : σ
  loanType : τ
  deriving DecidableEq, Repr

/-- An entry of the list `detectStatusChanges` returns. -/
structure StatusChange (ι σ τ : Type) where
  id : ι
  oldStatus : σ
  newStatus : σ
  loanType : τ
  deriving DecidableEq, Repr

/-- The body of the `forEach` callback of `detectStatusChanges`: `changes`
after the callback has run on `newApp`. -/
def detectStep {ι σ τ : Type} [DecidableEq ι] [DecidableEq σ]
    (oldApps : List (Application ι σ τ)) (changes : List (StatusChange ι σ τ))
    (newApp : Application ι σ τ) : List (StatusChange ι σ τ) :=
  match oldApps.find? (fun app => app.id == newApp.id) with
  | some oldApp =>
      if oldApp.status != newApp.status then
        changes ++ [{ id := newApp.id, oldStatus := oldApp.status, newStatus := newApp.status,
                      loanType := newApp.loanType }]
      else changes
  | none => changes

/-- `detectStatusChanges`. -/
def detectStatusChanges {ι σ τ : Type} [DecidableEq ι] [DecidableEq σ]
    (oldApps newApps : List (Application ι σ τ)) : List (StatusChange ι σ τ) :=
  newApps.foldl (detectStep oldApps) []

/-- The entry the specification asks for a new application: one when the
first old application with the same id exists and has another status. -/
def expectedChange {ι σ τ : Type} [DecidableEq ι] [DecidableEq σ]
    (oldApps : List (Application ι σ τ)) (newApp : Application ι σ τ) :
    Option (StatusChange ι σ τ) :=
  match oldApps.find? (fun app => app.id == newApp.id) with
  | some oldApp =>
      if oldApp.status = newApp.status then none
      else some { id := newApp.id, oldStatus := oldApp.status, newStatus := newApp.status,
                  loanType := newApp.loanType }
  | none => none

end LoanStatus

namespace Notifications

/-- `getStatusLabel` of `src/pages/customer/Notifications.js`, whose `case`
labels are upper-case literals. -/
def getStatusLabel (status : Option String) : String :=
  match status.map toUpperCase with
  | none => LoanStatus.rawOrUnknown status
  | some key =>
      if key = "PENDING" ∨ key = "SUBMITTED" then "Submitted"
      else if key = "UNDER_REVIEW" ∨ key = "UNDER_MAKER_REVIEW" then "Under Review"
      else if key = "MAKER_APPROVED" then "Approved by Officer"
      else if key = "MAKER_REJECTED" then "Rejected by Officer"
      else if key = "UNDER_CHECKER_REVIEW" then "Final Review"
      else if key = "APPROVED" ∨ key = "FINAL_APPROVED" then "Approved"
      else if key = "REJECTED" ∨ key = "FINAL_REJECTED" then "Rejected"
      else LoanStatus.rawOrUnknown status

end Notifications


namespace AuthContext

/-! ### The reducer -/

/-- One step of the reducer keeps "authenticated iff a user is held", for an
action that is not a `LOGIN_SUCCESS` without identity. -/
theorem authReducer_keeps_link (state : AuthState) (action : Action)
    (ha : carriesIdentity action = true)
    (hs : state.isAuthenticated = true ↔ state.user ≠ none) :
    (authReducer state action).isAuthenticated = true ↔ (authReducer state action).user ≠ none := by
  cases action with
  | LOGIN_SUCCESS payload =>
      cases payload with
      | none => simp [carriesIdentity] at ha
      | some u => simp [authReducer]
  | LOGIN_START => simpa [authReducer] using hs
  | LOGIN_FAILURE m => simp [authReducer]
  | LOGOUT => simp [authReducer]
  | CLEAR_ERROR => simpa [authReducer] using hs
  | SET_LOADING b => simpa [authReducer] using hs
  | OTHER t => simpa [authReducer] using hs

/-- The link between `isAuthenticated` and `user` survives any run of such
actions. -/
theorem runActions_keeps_link (actions : List Action) :
    ∀ state : AuthState, (∀ a ∈ actions, carriesIdentity a = true) →
      (state.isAuthenticated = true ↔ state.user ≠ none) →
      ((runActions state actions).isAuthenticated = true ↔
        (runActions state actions).user ≠ none) := by
  induction actions with
  | nil => intro state _ hs; simpa [runActions] using hs
  | cons a rest ih =>
      intro state hall hs
      have hstep := authReducer_keeps_link state a (hall a (List.mem_cons_self a rest)) hs
      have hrest := ih (authReducer state a)
        (fun b hb => hall b (List.mem_cons_of_mem a hb)) hstep
      simpa [runActions] using hrest

/-- C1: in every state reached from `initialState` by dispatching a finite
sequence of actions in which each `LOGIN_SUCCESS` carries an identity,
`isAuthenticated` is true if and only if `user` is not `null`. -/
theorem authenticated_iff_user (actions : List Action)
    (h : ∀ a ∈ actions, carriesIdentity a = true) :
    (runActions initialState actions).isAuthenticated = true ↔
      (runActions initialState actions).user ≠ none :=
  runActions_keeps_link actions initialState h (by simp [initialState])

/-- C1, at a run that logs in, fails a second login and restores a session. -/
theorem authenticated_iff_user_witness :
    (∀ a ∈ [Action.LOGIN_START, .LOGIN_SUCCESS (some (normalizeLogin sampleEnv
        (sampleUser (.str "CUSTOMER")))), .CLEAR_ERROR, .LOGIN_START,
        .LOGIN_FAILURE "Unauthorized", .SET_LOADING false,
        .LOGIN_SUCCESS (some (normalizeLogin sampleEnv (sampleUser (.str "CUSTOMER"))))],
      carriesIdentity a = true) ∧
    ((runActions initialState [Action.LOGIN_START, .LOGIN_SUCCESS (some (normalizeLogin sampleEnv
        (sampleUser (.str "CUSTOMER")))), .CLEAR_ERROR, .LOGIN_START,
        .LOGIN_FAILURE "Unauthorized", .SET_LOADING false,
        .LOGIN_SUCCESS (some (normalizeLogin sampleEnv
          (sampleUser (.str "CUSTOMER"))))]).isAuthenticated = true ↔
      (runActions initialState [Action.LOGIN_START, .LOGIN_SUCCESS (some (normalizeLogin sampleEnv
        (sampleUser (.str "CUSTOMER")))), .CLEAR_ERROR, .LOGIN_START,
        .LOGIN_FAILURE "Unauthorized", .SET_LOADING false,
        .LOGIN_SUCCESS (some (normalizeLogin sampleEnv
          (sampleUser (.str "CUSTOMER"))))]).user ≠ none) :=
  ⟨by decide, authenticated_iff_user _ (by decide)⟩

/-! ### The `ROLE_` marker -/

theorem marker_append_cancel (a b : String) (h : "ROLE_" ++ a = "ROLE_" ++ b) : a = b := by
  apply String.ext
  have hd := congrArg String.data h
  simpa using hd

/-- A string begins with `ROLE_` exactly when it is `ROLE_` followed by its
characters from the sixth on. -/
theorem marker_isPrefixOf_iff (r : String) :
    "ROLE_".data.isPrefixOf r.data = true ↔ r = "ROLE_" ++ ⟨r.data.drop 5⟩ := by
  constructor
  · intro h
    rw [ List.isPrefixOf_iff_prefix] at h
    obtain ⟨t, ht⟩ := h
    apply String.ext
    rw [String.data_append, ← ht]
    simp
  · intro h
    rw [h, List.isPrefixOf_iff_prefix, String.data_append]
    exact List.prefix_append _ _

theorem marker_append_not_eq (r s : String) (hs : "ROLE_".data.isPrefixOf s.data = false) :
    "ROLE_" ++ r ≠ s := by
  intro h
  have hp : "ROLE_".data.isPrefixOf s.data = true := by
    rw [← h, List.isPrefixOf_iff_prefix, String.data_append]
    exact List.prefix_append _ _
  rw [hp] at hs
  exact Bool.noConfusion hs

/-- A string is `ROLE_` followed by `x` exactly when it begins with `ROLE_`
and `x` is what follows. -/
theorem eq_marker_append_iff (r x : String) :
    r = "ROLE_" ++ x ↔ ("ROLE_".data.isPrefixOf r.data = true ∧ x = ⟨r.data.drop 5⟩) := by
  constructor
  · intro h
    have hp : "ROLE_".data.isPrefixOf r.data = true := by
      rw [h, List.isPrefixOf_iff_prefix, String.data_append]
      exact List.prefix_append _ _
    refine ⟨hp, ?_⟩
    exact marker_append_cancel _ _ (h.symm.trans ((marker_isPrefixOf_iff r).1 hp))
  · rintro ⟨hp, hx⟩
    rw [hx]
    exact (marker_isPrefixOf_iff r).1 hp

/-! ### The role check -/

/-- The check on an object payload and a non-empty selected role: the two
strict comparisons of line 125. -/
theorem roleAccepted_object (env : Env) (u : BackendUser) (e : String) (he : e ≠ "") :
    roleAccepted env (.object u) (some e) = true ↔
      (u.role = .str (env.toUpperCase e) ∨ u.role = .str ("ROLE_" ++ env.toUpperCase e)) := by
  by_cases h1 : u.role = .str (env.toUpperCase e)
  · simp [roleAccepted, roleCheck, readUser, he, h1]
  · by_cases h2 : u.role = .str ("ROLE_" ++ env.toUpperCase e)
    · simp [roleAccepted, roleCheck, readUser, he, h2]
    · simp [roleAccepted, roleCheck, readUser, he, h1, h2]

/-- Without a selected role, or with an empty one, nothing is checked. -/
theorem roleAccepted_unselected (env : Env) (user : Payload) (sel : Option String)
    (h : sel = none ∨ sel = some "") : roleAccepted env user sel = true := by
  rcases h with h | h <;> simp [roleAccepted, roleCheck, h]

/-- C3 as stated fails: backend role `customer` and selected role `customer`
are equal ignoring letter case, and the check rejects. -/
theorem role_check_lowercase_backend_rejected :
    ¬ (roleAccepted sampleEnv (.object (sampleUser (.str "customer"))) (some "customer") =
          true ↔
        specRoleMatch sampleEnv "customer" "customer" = true) := by
  decide

/-- C3, amended: for a backend role `r` and a non-empty selected role `e`, the
check accepts exactly when `r` is `e.toUpperCase()` or `ROLE_` followed by it;
that is, exactly when `e.toUpperCase()` equals `r`, or equals `r` without its
leading `ROLE_`. The letter case of the selected role is ignored; the backend
role is compared as it is. -/
theorem role_check_accepts_iff (env : Env) (u : BackendUser) (r e : String)
    (hr : u.role = .str r) (he : e ≠ "") :
    (roleAccepted env (.object u) (some e) = true ↔
        (r = env.toUpperCase e ∨ r = "ROLE_" ++ env.toUpperCase e)) ∧
      (roleAccepted env (.object u) (some e) = true ↔
        (env.toUpperCase e = r ∨
          ("ROLE_".data.isPrefixOf r.data = true ∧ env.toUpperCase e = ⟨r.data.drop 5⟩))) := by
  have h1 : roleAccepted env (.object u) (some e) = true ↔
      (r = env.toUpperCase e ∨ r = "ROLE_" ++ env.toUpperCase e) := by
    rw [roleAccepted_object env u e he, hr]
    simp
  refine ⟨h1, h1.trans ?_⟩
  rw [eq_marker_append_iff r (env.toUpperCase e)]
  constructor
  · rintro (h | h)
    · exact Or.inl h.symm
    · exact Or.inr h
  · rintro (h | h)
    · exact Or.inl h.symm
    · exact Or.inr h

/-- C3, amended, at the backend roles `ROLE_CUSTOMER`, accepted, and
`customer`, rejected, with selected role `customer`. -/
theorem role_check_accepts_iff_witness :
    ((sampleUser (.str "ROLE_CUSTOMER")).role = .str "ROLE_CUSTOMER" ∧ "customer" ≠ "" ∧
      roleAccepted sampleEnv (.object (sampleUser (.str "ROLE_CUSTOMER"))) (some "customer") =
        true ∧
      "ROLE_".data.isPrefixOf "ROLE_CUSTOMER".data = true ∧
      sampleEnv.toUpperCase "customer" = ⟨"ROLE_CUSTOMER".data.drop 5⟩) ∧
    ((sampleUser (.str "customer")).role = .str "customer" ∧
      ¬ ("customer" = sampleEnv.toUpperCase "customer" ∨
        "customer" = "ROLE_" ++ sampleEnv.toUpperCase "customer") ∧
      ¬ roleAccepted sampleEnv (.object (sampleUser (.str "customer"))) (some "customer") =
        true) :=
  ⟨⟨rfl, by decide,
      ((role_check_accepts_iff sampleEnv (sampleUser (.str "ROLE_CUSTOMER")) "ROLE_CUSTOMER"
        "customer" rfl (by decide)).2).2 (Or.inr ⟨by decide, by decide⟩),
      by decide, by decide⟩,
    ⟨rfl, by decide,
      fun h => absurd (((role_check_accepts_iff sampleEnv (sampleUser (.str "customer"))
        "customer" "customer" rfl (by decide)).1).1 h) (by decide)⟩⟩

/-- C4 as stated fails: with selected role `customer`, backend role `customer`
is rejected and backend role `ROLE_` + `customer` in upper case is accepted. -/
theorem role_check_prefixed_differs :
    ¬ (roleAccepted sampleEnv (.object (sampleUser (.str "customer"))) (some "customer") =
        roleAccepted sampleEnv
          (.object (sampleUser (.str ("ROLE_" ++ sampleEnv.toUpperCase "customer"))))
          (some "customer")) := by
  decide

/-- C4, amended: for a role `r` in upper case (`r.toUpperCase()` is `r`) that
does not begin with `ROLE_` and a selected role that does not begin with
`ROLE_` once put in upper case, the check gives the same outcome for backend
role `r` and for backend role `ROLE_` + `r.toUpperCase()`. -/
theorem role_check_prefixed_same (env : Env) (u : BackendUser) (r : String)
    (sel : Option String) (hup : env.toUpperCase r = r)
    (hr : "ROLE_".data.isPrefixOf r.data = false)
    (hsel : selectedHasMarker env sel = false) :
    roleAccepted env (.object { u with role := .str r }) sel =
      roleAccepted env (.object { u with role := .str ("ROLE_" ++ env.toUpperCase r) })
        sel := by
  cases sel with
  | none =>
      rw [roleAccepted_unselected env _ none (Or.inl rfl),
        roleAccepted_unselected env _ none (Or.inl rfl)]
  | some e =>
      by_cases he : e = ""
      · subst he
        rw [roleAccepted_unselected env _ (some "") (Or.inr rfl),
          roleAccepted_unselected env _ (some "") (Or.inr rfl)]
      · rw [Bool.eq_iff_iff, roleAccepted_object env _ e he, roleAccepted_object env _ e he]
        have hsel2 : "ROLE_".data.isPrefixOf (env.toUpperCase e).data = false := hsel
        have n1 : r ≠ "ROLE_" ++ env.toUpperCase e := fun h =>
          marker_append_not_eq (env.toUpperCase e) r hr h.symm
        have n2 : "ROLE_" ++ env.toUpperCase r ≠ env.toUpperCase e :=
          marker_append_not_eq (env.toUpperCase r) (env.toUpperCase e) hsel2
        constructor
        · rintro (h | h)
          · right
            have hre : r = env.toUpperCase e := by simpa using h
            have hgoal : "ROLE_" ++ env.toUpperCase r = "ROLE_" ++ env.toUpperCase e := by
              rw [hup, ← hre]
            simp [hgoal]
          · exact absurd (by simpa using h) n1
        · rintro (h | h)
          · exact absurd (by simpa using h) n2
          · left
            have h2 : "ROLE_" ++ env.toUpperCase r = "ROLE_" ++ env.toUpperCase e := by
              simpa using h
            have h3 := marker_append_cancel _ _ h2
            rw [hup] at h3
            simp [h3]

/-- C4, amended, at role `CUSTOMER` and selected role `customer`. -/
theorem role_check_prefixed_same_witness :
    sampleEnv.toUpperCase "CUSTOMER" = "CUSTOMER" ∧
      "ROLE_".data.isPrefixOf "CUSTOMER".data = false ∧
      selectedHasMarker sampleEnv (some "customer") = false ∧
      roleAccepted sampleEnv (.object { sampleUser .null with role := .str "CUSTOMER" })
          (some "customer") =
        roleAccepted sampleEnv (.object { sampleUser .null with
          role := .str ("ROLE_" ++ sampleEnv.toUpperCase "CUSTOMER") }) (some "customer") :=
  ⟨by decide, by decide, by decide,
    role_check_prefixed_same sampleEnv (sampleUser .null) "CUSTOMER" (some "customer")
      (by decide) (by decide) (by decide)⟩

/-! ### `login` -/

/-- The `try` block of `login` when the fetch resolves to an object and the
role check lets it go on. -/
theorem loginTry_ok (env : Env) (api : Backend) (credentials : LoginArgs) (storage : Storage)
    (u : BackendUser) (hme : api.getMe credentials.email credentials.password = .ok (.object u))
    (hacc : roleAccepted env (.object u) credentials.selectedRole = true) :
    loginTry env api credentials storage =
      .ok (storageAfterLogin env credentials u storage, normalizeLogin env u) := by
  unfold roleAccepted at hacc
  unfold loginTry meApi
  rw [hme]
  cases hrc : roleCheck env (.object u) credentials.selectedRole with
  | error m => rw [hrc] at hacc; exact Bool.noConfusion hacc
  | ok v => simp [hrc, readUser, storageAfterLogin]

/-- What `login` does when the fetch resolves to an object and the role check
lets it go on. -/
theorem login_ok (env : Env) (api : Backend) (credentials : LoginArgs) (w : World)
    (u : BackendUser) (hme : api.getMe credentials.email credentials.password = .ok (.object u))
    (hacc : roleAccepted env (.object u) credentials.selectedRole = true) :
    login env api credentials w =
      (dispatch { issue (dispatch w .LOGIN_START)
            (.getMe credentials.email credentials.password) with
          storage := storageAfterLogin env credentials u w.storage }
          (.LOGIN_SUCCESS (some (normalizeLogin env u))),
        { success := true, user := some (normalizeLogin env u), error := none }) := by
  unfold login
  simp only [loginTry_ok env api credentials _ u hme hacc]
  rfl

/-- What `login` does when its `try` block throws `message`. -/
theorem login_error (env : Env) (api : Backend) (credentials : LoginArgs) (w : World)
    (message : String)
    (h : loginTry env api credentials w.storage = .error message) :
    login env api credentials w =
      (dispatch (issue (dispatch w .LOGIN_START)
          (.getMe credentials.email credentials.password)) (.LOGIN_FAILURE message),
        { success := false, user := none, error := some message }) := by
  unfold login
  have h2 : loginTry env api credentials
      (issue (dispatch w .LOGIN_START)
        (.getMe credentials.email credentials.password)).storage = .error message := h
  simp only [h2]

/-- A `login` that does not succeed threw: its `try` block ended with a
message. -/
theorem login_failed_threw (env : Env) (api : Backend) (credentials : LoginArgs) (w : World)
    (h : (login env api credentials w).2.success = false) :
    ∃ message, loginTry env api credentials w.storage = .error message := by
  cases ht : loginTry env api credentials w.storage with
  | error m => exact ⟨m, rfl⟩
  | ok p =>
      have h2 : loginTry env api credentials
          (issue (dispatch w .LOGIN_START)
            (.getMe credentials.email credentials.password)).storage = .ok p := ht
      unfold login at h
      simp only [h2] at h
      exact Bool.noConfusion h

/-- C2 as stated fails: with backend role `ROLE_CUSTOMER` and selected role
`customer` the login succeeds, and the role stored in the state and in the
persisted record is `role_customer`, not `customer`. -/
theorem login_keeps_role_marker :
    (login sampleEnv (sampleBackend (.str "ROLE_CUSTOMER"))
        { email := "a@b.com", password := "pw", selectedRole := some "customer" }
        freshWorld).2.success = true ∧
      Option.map Identity.role (login sampleEnv (sampleBackend (.str "ROLE_CUSTOMER"))
        { email := "a@b.com", password := "pw", selectedRole := some "customer" }
        freshWorld).1.state.user = some "role_customer" ∧
      Option.map Identity.role (login sampleEnv (sampleBackend (.str "ROLE_CUSTOMER"))
        { email := "a@b.com", password := "pw", selectedRole := some "customer" }
        freshWorld).1.state.user ≠ some "customer" ∧
      getItem (login sampleEnv (sampleBackend (.str "ROLE_CUSTOMER"))
        { email := "a@b.com", password := "pw", selectedRole := some "customer" }
        freshWorld).1.storage "user" =
        some (sampleStringify
          { id := .num sampleId, email := .str "a@b.com", role := "role_customer",
            name := .str "Asha", phone := .str "", createdAt := .num sampleNow }) := by
  decide

/-- C2, amended: when the fetch resolves to a user whose role is the string
`r` and the role check lets the login go on, `login` succeeds and the role of
the identity in the state and in the persisted `user` record is
`r.toLowerCase()`, the whole of `r` in lower case: nothing is removed from
it. -/
theorem login_stores_lowercased_role (env : Env) (api : Backend) (credentials : LoginArgs)
    (w : World) (u : BackendUser) (r : String)
    (hme : api.getMe credentials.email credentials.password = .ok (.object u))
    (hr : u.role = .str r)
    (hacc : roleAccepted env (.object u) credentials.selectedRole = true) :
    (login env api credentials w).2.success = true ∧
      (login env api credentials w).1.state.user = some (normalizeLogin env u) ∧
      getItem (login env api credentials w).1.storage "user" =
        some (env.stringify (normalizeLogin env u)) ∧
      (normalizeLogin env u).role = env.toLowerCase r := by
  have hrole : (normalizeLogin env u).role = env.toLowerCase r := by
    by_cases hempty : r = ""
    · simp [normalizeLogin, hr, hempty, Js.or, truthy, toStr]
    · simp [normalizeLogin, hr, hempty, Js.or, truthy, toStr]
  rw [login_ok env api credentials w u hme hacc]
  refine ⟨rfl, by simp [dispatch, authReducer], ?_, hrole⟩
  simp only [dispatch, getItem, storageAfterLogin, setCredentials]
  split <;> simp [setItem]

/-- C2, amended, at the scenario of the specification, where the stored role
is `role_customer`. -/
theorem login_stores_lowercased_role_witness :
    (sampleBackend (.str "ROLE_CUSTOMER")).getMe "a@b.com" "pw" =
        .ok (.object (sampleUser (.str "ROLE_CUSTOMER"))) ∧
      (sampleUser (.str "ROLE_CUSTOMER")).role = .str "ROLE_CUSTOMER" ∧
      roleAccepted sampleEnv (.object (sampleUser (.str "ROLE_CUSTOMER"))) (some "customer") =
        true ∧
      sampleEnv.toLowerCase "ROLE_CUSTOMER" = "role_customer" ∧
      ((login sampleEnv (sampleBackend (.str "ROLE_CUSTOMER"))
          { email := "a@b.com", password := "pw", selectedRole := some "customer" }
          freshWorld).2.success = true ∧
        (login sampleEnv (sampleBackend (.str "ROLE_CUSTOMER"))
          { email := "a@b.com", password := "pw", selectedRole := some "customer" }
          freshWorld).1.state.user =
          some (normalizeLogin sampleEnv (sampleUser (.str "ROLE_CUSTOMER"))) ∧
        getItem (login sampleEnv (sampleBackend (.str "ROLE_CUSTOMER"))
          { email := "a@b.com", password := "pw", selectedRole := some "customer" }
          freshWorld).1.storage "user" =
          some (sampleEnv.stringify (normalizeLogin sampleEnv
            (sampleUser (.str "ROLE_CUSTOMER")))) ∧
        (normalizeLogin sampleEnv (sampleUser (.str "ROLE_CUSTOMER"))).role =
          sampleEnv.toLowerCase "ROLE_CUSTOMER") :=
  ⟨rfl, rfl, by decide, by decide,
    login_stores_lowercased_role sampleEnv (sampleBackend (.str "ROLE_CUSTOMER"))
      { email := "a@b.com", password := "pw", selectedRole := some "customer" }
      freshWorld (sampleUser (.str "ROLE_CUSTOMER")) "ROLE_CUSTOMER" rfl rfl (by decide)⟩

/-- C5: a `login` that fails, whatever made it fail, leaves the storage as it
was: the slots `user`, `token`, `basic_email` and `basic_password` hold what
they held, and a Vault that loaded nothing before still loads nothing. -/
theorem failed_login_leaves_storage (env : Env) (api : Backend) (credentials : LoginArgs)
    (w : World) (h : (login env api credentials w).2.success = false) :
    (login env api credentials w).1.storage = w.storage ∧
      getItem (login env api credentials w).1.storage "user" = getItem w.storage "user" ∧
      getItem (login env api credentials w).1.storage "token" = getItem w.storage "token" ∧
      getItem (login env api credentials w).1.storage "basic_email" =
        getItem w.storage "basic_email" ∧
      getItem (login env api credentials w).1.storage "basic_password" =
        getItem w.storage "basic_password" ∧
      (getCredentials w.storage = none →
        getCredentials (login env api credentials w).1.storage = none) := by
  obtain ⟨message, hm⟩ := login_failed_threw env api credentials w h
  have hs : (login env api credentials w).1.storage = w.storage := by
    rw [login_error env api credentials w message hm]
    rfl
  rw [hs]
  exact ⟨rfl, rfl, rfl, rfl, rfl, fun hv => hv⟩

/-- C5, at the scenario of the specification: backend role `ROLE_CUSTOMER`,
selected role `officer`, nothing stored before. -/
theorem failed_login_leaves_storage_witness :
    (login sampleEnv (sampleBackend (.str "ROLE_CUSTOMER"))
        { email := "a@b.com", password := "pw", selectedRole := some "officer" }
        freshWorld).2.success = false ∧
      ((login sampleEnv (sampleBackend (.str "ROLE_CUSTOMER"))
          { email := "a@b.com", password := "pw", selectedRole := some "officer" }
          freshWorld).1.storage = freshWorld.storage ∧
        getItem (login sampleEnv (sampleBackend (.str "ROLE_CUSTOMER"))
          { email := "a@b.com", password := "pw", selectedRole := some "officer" }
          freshWorld).1.storage "user" = getItem freshWorld.storage "user" ∧
        getItem (login sampleEnv (sampleBackend (.str "ROLE_CUSTOMER"))
          { email := "a@b.com", password := "pw", selectedRole := some "officer" }
          freshWorld).1.storage "token" = getItem freshWorld.storage "token" ∧
        getItem (login sampleEnv (sampleBackend (.str "ROLE_CUSTOMER"))
          { email := "a@b.com", password := "pw", selectedRole := some "officer" }
          freshWorld).1.storage "basic_email" = getItem freshWorld.storage "basic_email" ∧
        getItem (login sampleEnv (sampleBackend (.str "ROLE_CUSTOMER"))
          { email := "a@b.com", password := "pw", selectedRole := some "officer" }
          freshWorld).1.storage "basic_password" =
          getItem freshWorld.storage "basic_password" ∧
        (getCredentials freshWorld.storage = none →
          getCredentials (login sampleEnv (sampleBackend (.str "ROLE_CUSTOMER"))
            { email := "a@b.com", password := "pw", selectedRole := some "officer" }
            freshWorld).1.storage = none)) :=
  ⟨by decide,
    failed_login_leaves_storage sampleEnv (sampleBackend (.str "ROLE_CUSTOMER"))
      { email := "a@b.com", password := "pw", selectedRole := some "officer" }
      freshWorld (by decide)⟩

/-- The role check on an object payload, when it rejects, throws the
`Access denied` message. -/
theorem roleCheck_rejects (env : Env) (u : BackendUser) (e : String) (he : e ≠ "")
    (hrej : roleAccepted env (.object u) (some e) = false) :
    roleCheck env (.object u) (some e) = .error (accessDenied u.role e) := by
  have hnot : ¬ (u.role = .str (env.toUpperCase e) ∨
      u.role = .str ("ROLE_" ++ env.toUpperCase e)) := by
    intro hor
    rw [(roleAccepted_object env u e he).2 hor] at hrej
    exact Bool.noConfusion hrej
  have h1 : u.role ≠ .str (env.toUpperCase e) := fun hh => hnot (Or.inl hh)
  have h2 : u.role ≠ .str ("ROLE_" ++ env.toUpperCase e) := fun hh => hnot (Or.inr hh)
  simp [roleCheck, readUser, he, h1, h2]

/-- C6: when a selected role is given and the role check rejects, `login`
returns `success = false` with the `Access denied` message, which contains the
backend's role and the selected role as supplied; the same message is in
`state.error`, and the state ends with `user = null`, `isAuthenticated = false`
and `loading = false`. -/
theorem login_role_mismatch (env : Env) (api : Backend) (credentials : LoginArgs) (w : World)
    (u : BackendUser) (e : String)
    (hme : api.getMe credentials.email credentials.password = .ok (.object u))
    (hsel : credentials.selectedRole = some e) (he : e ≠ "")
    (hrej : roleAccepted env (.object u) (some e) = false) :
    (login env api credentials w).2.success = false ∧
      (login env api credentials w).2.error = some (accessDenied u.role e) ∧
      (login env api credentials w).1.state.error = some (accessDenied u.role e) ∧
      (login env api credentials w).1.state.user = none ∧
      (login env api credentials w).1.state.isAuthenticated = false ∧
      (login env api credentials w).1.state.loading = false ∧
      (∃ before after : String, accessDenied u.role e = before ++ toStr u.role ++ after) ∧
      (∃ before after : String, accessDenied u.role e = before ++ e ++ after) := by
  have htry : loginTry env api credentials w.storage = .error (accessDenied u.role e) := by
    unfold loginTry meApi
    rw [hme, hsel]
    simp [roleCheck_rejects env u e he hrej]
  rw [login_error env api credentials w _ htry]
  refine ⟨rfl, rfl, rfl, rfl, rfl, rfl, ?_, ?_⟩
  · exact ⟨"Access denied. Your account role is ", ", but you selected " ++ e ++ ".", by
      simp [accessDenied, String.append_assoc]⟩
  · exact ⟨"Access denied. Your account role is " ++ toStr u.role ++ ", but you selected ", ".",
      by simp [accessDenied, String.append_assoc]⟩

/-- C6, at backend role `ROLE_CUSTOMER` and selected role `officer`. -/
theorem login_role_mismatch_witness :
    (sampleBackend (.str "ROLE_CUSTOMER")).getMe "a@b.com" "pw" =
        .ok (.object (sampleUser (.str "ROLE_CUSTOMER"))) ∧
      "officer" ≠ "" ∧
      roleAccepted sampleEnv (.object (sampleUser (.str "ROLE_CUSTOMER"))) (some "officer") = false ∧
      (login sampleEnv (sampleBackend (.str "ROLE_CUSTOMER"))
        { email := "a@b.com", password := "pw", selectedRole := some "officer" }
        freshWorld).2.error =
        some "Access denied. Your account role is ROLE_CUSTOMER, but you selected officer." ∧
      (login sampleEnv (sampleBackend (.str "ROLE_CUSTOMER"))
        { email := "a@b.com", password := "pw", selectedRole := some "officer" }
        freshWorld).1.state.error =
        some "Access denied. Your account role is ROLE_CUSTOMER, but you selected officer." :=
  ⟨rfl, by decide, by decide,
    (login_role_mismatch sampleEnv (sampleBackend (.str "ROLE_CUSTOMER"))
      { email := "a@b.com", password := "pw", selectedRole := some "officer" }
      freshWorld (sampleUser (.str "ROLE_CUSTOMER")) "officer" rfl rfl (by decide)
      (by decide)).2.1,
    (login_role_mismatch sampleEnv (sampleBackend (.str "ROLE_CUSTOMER"))
      { email := "a@b.com", password := "pw", selectedRole := some "officer" }
      freshWorld (sampleUser (.str "ROLE_CUSTOMER")) "officer" rfl rfl (by decide)
      (by decide)).2.2.1⟩

/-- Saving a pair of non-empty strings and loading gives that pair back. -/
theorem getCredentials_setCredentials (storage : Storage) (email password : String)
    (he : email ≠ "") (hp : password ≠ "") :
    getCredentials (setCredentials storage (.str email) (.str password)) =
      some { email := email, password := password } := by
  simp [getCredentials, setCredentials, getItem, setItem, truthy, toStr, he, hp]

/-- Saving a pair with an empty member changes nothing. -/
theorem setCredentials_empty (storage : Storage) (email password : String)
    (h : email = "" ∨ password = "") :
    setCredentials storage (.str email) (.str password) = storage := by
  rcases h with h | h <;> simp [setCredentials, truthy, h]

/-- C7 as stated fails: a login with an empty password that the backend
accepts succeeds, and the Vault loads nothing instead of the pair supplied. -/
theorem login_empty_password_not_saved :
    (login sampleEnv (sampleBackend (.str "CUSTOMER"))
        { email := "a@b.com", password := "", selectedRole := none } freshWorld).2.success =
        true ∧
      getCredentials (login sampleEnv (sampleBackend (.str "CUSTOMER"))
        { email := "a@b.com", password := "", selectedRole := none } freshWorld).1.storage =
        none ∧
      getCredentials (login sampleEnv (sampleBackend (.str "CUSTOMER"))
        { email := "a@b.com", password := "", selectedRole := none } freshWorld).1.storage ≠
        some { email := "a@b.com", password := "" } := by
  decide

/-- C7, amended: after a successful `login` with a non-empty email and a
non-empty password, the Vault loads exactly the pair supplied, the `user` slot
holds the serialized normalized identity, the `token` marker is set, and the
state is authenticated with that identity, not loading and without error. -/
theorem login_persists_session (env : Env) (api : Backend) (credentials : LoginArgs)
    (w : World) (u : BackendUser)
    (hme : api.getMe credentials.email credentials.password = .ok (.object u))
    (hacc : roleAccepted env (.object u) credentials.selectedRole = true)
    (he : credentials.email ≠ "") (hp : credentials.password ≠ "") :
    (login env api credentials w).2 =
        { success := true, user := some (normalizeLogin env u), error := none } ∧
      getCredentials (login env api credentials w).1.storage =
        some { email := credentials.email, password := credentials.password } ∧
      getItem (login env api credentials w).1.storage "user" =
        some (env.stringify (normalizeLogin env u)) ∧
      getItem (login env api credentials w).1.storage "token" = some "basic" ∧
      (login env api credentials w).1.state =
        { user := some (normalizeLogin env u), isAuthenticated := true, loading := false,
          error := none } := by
  rw [login_ok env api credentials w u hme hacc]
  refine ⟨rfl, ?_, ?_, ?_, ?_⟩
  · exact getCredentials_setCredentials _ _ _ he hp
  · simp [dispatch, getItem, storageAfterLogin, setCredentials, setItem, truthy, he, hp]
  · simp [dispatch, getItem, storageAfterLogin, setCredentials, setItem, truthy, he, hp]
  · simp [dispatch, issue, authReducer]

/-- C7, amended, at the login of `a@b.com` with password `pw`. -/
theorem login_persists_session_witness :
    (sampleBackend (.str "CUSTOMER")).getMe "a@b.com" "pw" =
        .ok (.object (sampleUser (.str "CUSTOMER"))) ∧
      roleAccepted sampleEnv (.object (sampleUser (.str "CUSTOMER"))) (some "customer") = true ∧
      "a@b.com" ≠ "" ∧ "pw" ≠ "" ∧
      getCredentials (login sampleEnv (sampleBackend (.str "CUSTOMER"))
        { email := "a@b.com", password := "pw", selectedRole := some "customer" }
        freshWorld).1.storage = some { email := "a@b.com", password := "pw" } :=
  ⟨rfl, by decide, by decide, by decide,
    (login_persists_session sampleEnv (sampleBackend (.str "CUSTOMER"))
      { email := "a@b.com", password := "pw", selectedRole := some "customer" }
      freshWorld (sampleUser (.str "CUSTOMER")) rfl (by decide) (by decide) (by decide)).2.1⟩

/-! ### `logout` -/

/-- C8: from every state and storage, after `logout` the Vault loads nothing,
the `user` and `token` slots are absent, and the state has `user = null`,
`isAuthenticated = false`, `loading = false` and `error = null`; `logout` is a
total function of the world, with no failing branch. -/
theorem logout_clears_session (w : World) :
    getCredentials (logout w).storage = none ∧
      getItem (logout w).storage "user" = none ∧
      getItem (logout w).storage "token" = none ∧
      getItem (logout w).storage "basic_email" = none ∧
      getItem (logout w).storage "basic_password" = none ∧
      (logout w).state =
        { user := none, isAuthenticated := false, loading := false, error := none } := by
  refine ⟨?_, ?_, ?_, ?_, ?_, ?_⟩
  · simp [logout, dispatch, getCredentials, getItem, removeItem]
  · simp [logout, dispatch, getItem, removeItem]
  · simp [logout, dispatch, getItem, removeItem]
  · simp [logout, dispatch, getItem, removeItem]
  · simp [logout, dispatch, getItem, removeItem]
  · simp [logout, dispatch, authReducer]

/-! ### `changePassword` -/

/-- What `changePassword` does when the Vault loads nothing. -/
theorem changePassword_no_credentials (api : Backend) (currentPassword newPassword : String)
    (w : World) (h : getCredentials w.storage = none) :
    changePassword api currentPassword newPassword w =
      (dispatch (dispatch w (.SET_LOADING true)) (.SET_LOADING false),
        { success := false, user := none, error := some "Please re-login to change password" }) := by
  have h2 : getCredentials (dispatch w (.SET_LOADING true)).storage = none := h
  unfold changePassword
  simp only [h2]

/-- What `changePassword` does when the Vault loads a pair and the backend
accepts the change. -/
theorem changePassword_ok (api : Backend) (currentPassword newPassword : String)
    (w : World) (creds : Credentials) (h : getCredentials w.storage = some creds)
    (hapi : api.postChangePassword currentPassword newPassword creds.email creds.password =
      .ok ()) :
    changePassword api currentPassword newPassword w =
      (dispatch { issue (dispatch w (.SET_LOADING true))
            (.postChangePassword currentPassword newPassword creds.email creds.password) with
          storage := setCredentials w.storage (.str creds.email) (.str newPassword) }
          (.SET_LOADING false),
        { success := true, user := none, error := none }) := by
  have h2 : getCredentials (dispatch w (.SET_LOADING true)).storage = some creds := h
  unfold changePassword
  simp only [h2, changePasswordApi, hapi]
  rfl

/-- C9 as stated fails: a change to the empty password that the backend
accepts succeeds, and the Vault still loads the old password. -/
theorem changePassword_empty_not_saved :
    getCredentials loggedInWorld.storage = some { email := "a@b.com", password := "old" } ∧
      (changePassword (sampleBackend (.str "CUSTOMER")) "old" "" loggedInWorld).2.success =
        true ∧
      getCredentials
        (changePassword (sampleBackend (.str "CUSTOMER")) "old" "" loggedInWorld).1.storage =
        some { email := "a@b.com", password := "old" } ∧
      getCredentials
        (changePassword (sampleBackend (.str "CUSTOMER")) "old" "" loggedInWorld).1.storage ≠
        some { email := "a@b.com", password := "" } := by
  decide

/-- C9, amended: after a successful `changePassword` started with a loadable
pair in the Vault, for every non-empty new password that the backend accepts,
the Vault loads the same email with the new password. -/
theorem changePassword_updates_vault (api : Backend) (currentPassword newPassword : String)
    (w : World) (creds : Credentials) (h : getCredentials w.storage = some creds)
    (hapi : api.postChangePassword currentPassword newPassword creds.email creds.password =
      .ok ())
    (hnew : newPassword ≠ "") :
    (changePassword api currentPassword newPassword w).2.success = true ∧
      getCredentials (changePassword api currentPassword newPassword w).1.storage =
        some { email := creds.email, password := newPassword } := by
  have hemail : creds.email ≠ "" := by
    intro hc
    simp only [getCredentials] at h
    split at h
    · rename_i email password h1 h2
      split at h
      · rename_i hne
        have heq : email = creds.email := by
          have := congrArg (Option.map Credentials.email) h
          simpa using this
        rw [heq, hc] at hne
        simp at hne
      · exact Option.noConfusion h
    · exact Option.noConfusion h
  rw [changePassword_ok api currentPassword newPassword w creds h hapi]
  exact ⟨rfl, getCredentials_setCredentials _ _ _ hemail hnew⟩

/-- C9, amended, at a change from `old` to `new` after a login. -/
theorem changePassword_updates_vault_witness :
    getCredentials loggedInWorld.storage = some { email := "a@b.com", password := "old" } ∧
      (sampleBackend (.str "CUSTOMER")).postChangePassword "old" "new" "a@b.com" "old" =
        .ok () ∧
      "new" ≠ "" ∧
      ((changePassword (sampleBackend (.str "CUSTOMER")) "old" "new" loggedInWorld).2.success =
          true ∧
        getCredentials
          (changePassword (sampleBackend (.str "CUSTOMER")) "old" "new" loggedInWorld).1.storage =
          some { email := "a@b.com", password := "new" }) :=
  ⟨by decide, rfl, by decide,
    changePassword_updates_vault (sampleBackend (.str "CUSTOMER")) "old" "new" loggedInWorld
      { email := "a@b.com", password := "old" } (by decide) rfl (by decide)⟩

/-- C10: a `changePassword` that fails, by backend rejection or because the
Vault loads nothing (then with the message `Please re-login to change
password`), leaves `user`, `isAuthenticated` and `error` as they were, ends
with `loading = false`, and leaves the storage, hence the Vault and the
persisted record, unchanged. -/
theorem failed_changePassword_frame (api : Backend) (currentPassword newPassword : String)
    (w : World) (h : (changePassword api currentPassword newPassword w).2.success = false) :
    (changePassword api currentPassword newPassword w).1.state =
        { w.state with loading := false } ∧
      (changePassword api currentPassword newPassword w).1.storage = w.storage ∧
      getCredentials (changePassword api currentPassword newPassword w).1.storage =
        getCredentials w.storage ∧
      getItem (changePassword api currentPassword newPassword w).1.storage "user" =
        getItem w.storage "user" ∧
      getItem (changePassword api currentPassword newPassword w).1.storage "token" =
        getItem w.storage "token" ∧
      (getCredentials w.storage = none →
        (changePassword api currentPassword newPassword w).2 =
          { success := false, user := none,
            error := some "Please re-login to change password" }) := by
  have hs : (changePassword api currentPassword newPassword w).1.state =
        { w.state with loading := false } ∧
      (changePassword api currentPassword newPassword w).1.storage = w.storage := by
    cases hc : getCredentials w.storage with
    | none =>
        rw [changePassword_no_credentials api currentPassword newPassword w hc]
        exact ⟨rfl, rfl⟩
    | some creds =>
        have h2 : getCredentials (dispatch w (.SET_LOADING true)).storage = some creds := hc
        unfold changePassword at h ⊢
        simp only [h2] at h ⊢
        cases hapi : changePasswordApi api currentPassword newPassword creds.email
            creds.password with
        | error m => simp only [hapi]; exact ⟨rfl, rfl⟩
        | ok v =>
            simp only [hapi] at h
            exact Bool.noConfusion h
  refine ⟨hs.1, hs.2, by rw [hs.2], by rw [hs.2], by rw [hs.2], ?_⟩
  intro hc
  rw [changePassword_no_credentials api currentPassword newPassword w hc]

/-- C10, at a change of password with nothing in the Vault. -/
theorem failed_changePassword_frame_witness :
    (changePassword (sampleBackend (.str "CUSTOMER")) "old" "new" freshWorld).2.success =
        false ∧
      (changePassword (sampleBackend (.str "CUSTOMER")) "old" "new" freshWorld).1.state =
        { freshWorld.state with loading := false } ∧
      (changePassword (sampleBackend (.str "CUSTOMER")) "old" "new" freshWorld).1.storage =
        freshWorld.storage :=
  ⟨by decide,
    (failed_changePassword_frame (sampleBackend (.str "CUSTOMER")) "old" "new" freshWorld
      (by decide)).1,
    (failed_changePassword_frame (sampleBackend (.str "CUSTOMER")) "old" "new" freshWorld
      (by decide)).2.1⟩

/-! ### `updateProfile` -/

/-- What `updateProfile` does when the Vault loads nothing. -/
theorem updateProfile_unloadable (env : Env) (api : Backend)
    (captured : AuthState) (updates : ProfileUpdates)
    (w : World) (h : getCredentials w.storage = none) :
    updateProfile env api captured updates w =
      (dispatch (dispatch w (.SET_LOADING true))
          (.LOGIN_FAILURE "Please re-login to update profile"),
        { success := false, user := none, error := some "Please re-login to update profile" }) := by
  have h2 : getCredentials (dispatch w (.SET_LOADING true)).storage = none := h
  unfold updateProfile
  simp only [h2]

/-- C11: when the Vault loads no pair, `updateProfile` returns
`success = false` with the error `Please re-login to update profile`, stores
that message in `state.error`, and issues no request. -/
theorem updateProfile_no_credentials (env : Env) (api : Backend)
    (captured : AuthState) (updates : ProfileUpdates)
    (w : World) (h : getCredentials w.storage = none) :
    (updateProfile env api captured updates w).2 =
        { success := false, user := none, error := some "Please re-login to update profile" } ∧
      (updateProfile env api captured updates w).1.state.error =
        some "Please re-login to update profile" ∧
      (updateProfile env api captured updates w).1.requests = w.requests ∧
      requestsIssued w (updateProfile env api captured updates w).1 = [] := by
  rw [updateProfile_unloadable env api captured updates w h]
  refine ⟨rfl, rfl, rfl, ?_⟩
  simp [requestsIssued, dispatch]

/-- C11, at `updateProfile({name: "X"})` with no login before. -/
theorem updateProfile_no_credentials_witness :
    getCredentials freshWorld.storage = none ∧
      ((updateProfile sampleEnv (profileBackend (.object (sampleUser (.str "CUSTOMER"))))
        freshWorld.state
          { email := .undefined, name := .str "X", phone := .undefined } freshWorld).2 =
          { success := false, user := none,
            error := some "Please re-login to update profile" } ∧
        (updateProfile sampleEnv (profileBackend (.object (sampleUser (.str "CUSTOMER"))))
          freshWorld.state
          { email := .undefined, name := .str "X", phone := .undefined }
          freshWorld).1.state.error = some "Please re-login to update profile" ∧
        (updateProfile sampleEnv (profileBackend (.object (sampleUser (.str "CUSTOMER"))))
          freshWorld.state
          { email := .undefined, name := .str "X", phone := .undefined }
          freshWorld).1.requests = freshWorld.requests ∧
        requestsIssued freshWorld
          (updateProfile sampleEnv (profileBackend (.object (sampleUser (.str "CUSTOMER"))))
            freshWorld.state
            { email := .undefined, name := .str "X", phone := .undefined } freshWorld).1 = []) :=
  ⟨by decide,
    updateProfile_no_credentials sampleEnv (profileBackend (.object (sampleUser (.str "CUSTOMER"))))
      freshWorld.state
      { email := .undefined, name := .str "X", phone := .undefined } freshWorld (by decide)⟩

/-- A successful `updateProfile` loaded a pair from the Vault and got an
object back from the backend; the world and result it leaves. -/
theorem updateProfile_success (env : Env) (api : Backend)
    (captured : AuthState) (updates : ProfileUpdates)
    (w : World) (h : (updateProfile env api captured updates w).2.success = true) :
    ∃ creds u, getCredentials w.storage = some creds ∧
      api.putProfile updates.email updates.name updates.phone creds.email creds.password =
        .ok (.object u) ∧
      updateProfile env api captured updates w =
        (dispatch { issue (dispatch w (.SET_LOADING true))
              (.putProfile updates.email updates.name updates.phone creds.email
                creds.password) with
            storage := setItem w.storage "user" (env.stringify (normalizeUpdate env captured u)) }
            (.LOGIN_SUCCESS (some (normalizeUpdate env captured u))),
          { success := true, user := some (normalizeUpdate env captured u), error := none }) := by
  cases hc : getCredentials w.storage with
  | none =>
      rw [updateProfile_unloadable env api captured updates w hc] at h
      exact Bool.noConfusion h
  | some creds =>
      have h2 : getCredentials (dispatch w (.SET_LOADING true)).storage = some creds := hc
      cases hapi : api.putProfile updates.email updates.name updates.phone creds.email
          creds.password with
      | error err =>
          unfold updateProfile at h
          simp only [h2, updateProfileApi, hapi] at h
          exact Bool.noConfusion h
      | ok updated =>
          cases updated with
          | null =>
              unfold updateProfile at h
              simp only [h2, updateProfileApi, hapi, readUser] at h
              exact Bool.noConfusion h
          | undefined =>
              unfold updateProfile at h
              simp only [h2, updateProfileApi, hapi, readUser] at h
              exact Bool.noConfusion h
          | object u =>
              refine ⟨creds, u, rfl, hapi, ?_⟩
              unfold updateProfile
              simp only [h2, updateProfileApi, hapi, readUser]
              rfl

/-- C12 as stated fails: called after a login through a function object that
an earlier render created, when the state held no identity, a successful
`updateProfile` stores `Date.now()` as `createdAt`, not the `createdAt` of the
identity the session state holds at the call. -/
theorem updateProfile_stale_createdAt :
    Option.map Identity.createdAt loggedInWorld.state.user = some (.num sampleNow) ∧
      (updateProfile laterEnv (profileBackend (.object (sampleUser (.str "CUSTOMER"))))
        initialState { email := .undefined, name := .str "X", phone := .undefined }
        loggedInWorld).2.success = true ∧
      Option.map Identity.createdAt
        (updateProfile laterEnv (profileBackend (.object (sampleUser (.str "CUSTOMER"))))
          initialState { email := .undefined, name := .str "X", phone := .undefined }
          loggedInWorld).1.state.user = some (.num laterNow) ∧
      Option.map Identity.createdAt
        (updateProfile laterEnv (profileBackend (.object (sampleUser (.str "CUSTOMER"))))
          initialState { email := .undefined, name := .str "X", phone := .undefined }
          loggedInWorld).1.state.user ≠
        Option.map Identity.createdAt loggedInWorld.state.user := by
  decide

/-- C12, amended: a successful `updateProfile`, called through a function
object created by a render whose state held an identity with a set (truthy)
`createdAt` value `c`, yields an identity, in the state and in the persisted
`user` record, with `createdAt = c` whatever the response holds, with `id` and
`email` of the response and its `name` and `phone` (the empty string in place
of a missing one); the state ends authenticated with `loading = false` and
`error = null`. -/
theorem updateProfile_keeps_createdAt (env : Env) (api : Backend) (captured : AuthState)
    (updates : ProfileUpdates) (w : World) (identity : Identity) (c : JsValue)
    (hsucc : (updateProfile env api captured updates w).2.success = true)
    (huser : captured.user = some identity) (hc : identity.createdAt = c)
    (hset : truthy c = true) :
    ∃ creds response result,
      getCredentials w.storage = some creds ∧
      api.putProfile updates.email updates.name updates.phone creds.email creds.password =
        .ok (.object response) ∧
      (updateProfile env api captured updates w).2 =
        { success := true, user := some result, error := none } ∧
      (updateProfile env api captured updates w).1.state =
        { user := some result, isAuthenticated := true, loading := false, error := none } ∧
      getItem (updateProfile env api captured updates w).1.storage "user" =
        some (env.stringify result) ∧
      result.createdAt = c ∧ result.id = response.id ∧ result.email = response.email ∧
      result.name = Js.or response.name (.str "") ∧
      result.phone = Js.or response.phone (.str "") := by
  obtain ⟨creds, u, hcreds, hapi, heq⟩ := updateProfile_success env api captured updates w hsucc
  refine ⟨creds, u, normalizeUpdate env captured u, hcreds, hapi, ?_, ?_, ?_, ?_, rfl, rfl, rfl,
    rfl⟩
  · rw [heq]
  · rw [heq]
    simp [dispatch, issue, authReducer]
  · rw [heq]
    simp [dispatch, getItem, setItem]
  · simp [normalizeUpdate, knownCreatedAt, huser, hc, Js.or, hset]

/-- C12, amended, at an update of the name after a login, made at a later time
through the function of the render that shows the login, and answered without
`createdAt`. -/
theorem updateProfile_keeps_createdAt_witness :
    (updateProfile laterEnv (profileBackend (.object (sampleUser (.str "CUSTOMER"))))
        loggedInWorld.state { email := .undefined, name := .str "X", phone := .undefined }
        loggedInWorld).2.success = true ∧
      loggedInWorld.state.user =
        some (normalizeLogin sampleEnv (sampleUser (.str "CUSTOMER"))) ∧
      (normalizeLogin sampleEnv (sampleUser (.str "CUSTOMER"))).createdAt =
        .num sampleNow ∧
      truthy (.num sampleNow) = true ∧
      ∃ creds response result,
        getCredentials loggedInWorld.storage = some creds ∧
        (profileBackend (.object (sampleUser (.str "CUSTOMER")))).putProfile .undefined
          (.str "X") .undefined creds.email creds.password = .ok (.object response) ∧
        (updateProfile laterEnv (profileBackend (.object (sampleUser (.str "CUSTOMER"))))
          loggedInWorld.state { email := .undefined, name := .str "X", phone := .undefined }
          loggedInWorld).2 = { success := true, user := some result, error := none } ∧
        (updateProfile laterEnv (profileBackend (.object (sampleUser (.str "CUSTOMER"))))
          loggedInWorld.state { email := .undefined, name := .str "X", phone := .undefined }
          loggedInWorld).1.state =
          { user := some result, isAuthenticated := true, loading := false, error := none } ∧
        getItem (updateProfile laterEnv
          (profileBackend (.object (sampleUser (.str "CUSTOMER")))) loggedInWorld.state
          { email := .undefined, name := .str "X", phone := .undefined }
          loggedInWorld).1.storage "user" = some (laterEnv.stringify result) ∧
        result.createdAt = .num sampleNow ∧ result.id = response.id ∧
        result.email = response.email ∧
        result.name = Js.or response.name (.str "") ∧
        result.phone = Js.or response.phone (.str "") :=
  ⟨by decide, by decide, by decide, by decide,
    updateProfile_keeps_createdAt laterEnv
      (profileBackend (.object (sampleUser (.str "CUSTOMER")))) loggedInWorld.state
      { email := .undefined, name := .str "X", phone := .undefined } loggedInWorld
      (normalizeLogin sampleEnv (sampleUser (.str "CUSTOMER"))) (.num sampleNow)
      (by decide) (by decide) (by decide) (by decide)⟩

/-! ### `register` -/

/-- The world `register` leaves differs from the one it found only in the
state and in the two traces. -/
theorem register_world (env : Env) (api : Backend) (userData : UserData) (w : World) :
    ∃ action, (register env api userData w).1 =
      dispatch (issue (dispatch w .LOGIN_START) (.postRegister (registerBody userData)))
        action := by
  unfold register
  cases registerApi api (registerBody userData) with
  | error m => exact ⟨_, rfl⟩
  | ok created =>
      cases created with
      | null => exact ⟨_, rfl⟩
      | undefined => exact ⟨_, rfl⟩
      | object u => exact ⟨_, rfl⟩

/-- C13: `register`, whether it succeeds or fails, leaves the storage as it
was: the slots `user`, `token`, `basic_email` and `basic_password` hold what
they held, and the Vault loads what it loaded, nothing if it loaded nothing. -/
theorem register_leaves_storage (env : Env) (api : Backend) (userData : UserData) (w : World) :
    (register env api userData w).1.storage = w.storage ∧
      getItem (register env api userData w).1.storage "user" = getItem w.storage "user" ∧
      getItem (register env api userData w).1.storage "token" = getItem w.storage "token" ∧
      getItem (register env api userData w).1.storage "basic_email" =
        getItem w.storage "basic_email" ∧
      getItem (register env api userData w).1.storage "basic_password" =
        getItem w.storage "basic_password" ∧
      getCredentials (register env api userData w).1.storage = getCredentials w.storage := by
  obtain ⟨action, ha⟩ := register_world env api userData w
  have hs : (register env api userData w).1.storage = w.storage := by
    rw [ha]
    rfl
  rw [hs]
  exact ⟨rfl, rfl, rfl, rfl, rfl, rfl⟩

/-- C14: whatever `userData` holds, its own `role` included, the body handed
to the register request has role `CUSTOMER`; that request is the only one
issued; and two calls that differ only in the caller's `role` send the same
body and behave alike. -/
theorem register_role_fixed (env : Env) (api : Backend) (userData : UserData) (role : JsValue)
    (w : World) :
    (registerBody userData).role = .str "CUSTOMER" ∧
      requestsIssued w (register env api userData w).1 =
        [.postRegister (registerBody userData)] ∧
      registerBody { userData with role := role } = registerBody userData ∧
      requestsIssued w (register env api { userData with role := role } w).1 =
        requestsIssued w (register env api userData w).1 ∧
      register env api { userData with role := role } w = register env api userData w := by
  have hbody : registerBody { userData with role := role } = registerBody userData := rfl
  have hreq : ∀ d : UserData, requestsIssued w (register env api d w).1 =
      [.postRegister (registerBody d)] := by
    intro d
    obtain ⟨action, ha⟩ := register_world env api d w
    rw [ha]
    simp [requestsIssued, dispatch, issue]
  refine ⟨rfl, hreq userData, hbody, ?_, ?_⟩
  · rw [hreq, hreq, hbody]
  · unfold register
    rw [hbody]

/-- C15: a `register` that fails, with message `m`, returns
`{success: false, error: m}` and leaves the state with `user = null`,
`isAuthenticated = false`, `loading = false` and `error = m`. -/
theorem register_failure (env : Env) (api : Backend) (userData : UserData) (w : World)
    (h : (register env api userData w).2.success = false) :
    ∃ m : String,
      (register env api userData w).2 = { success := false, user := none, error := some m } ∧
      (register env api userData w).1.state =
        { user := none, isAuthenticated := false, loading := false, error := some m } := by
  unfold register at h ⊢
  cases hr : registerApi api (registerBody userData) with
  | error m =>
      refine ⟨m, ?_, ?_⟩ <;> simp [dispatch, issue, authReducer]
  | ok created =>
      cases created with
      | null =>
          refine ⟨typeErrorMessage true "id", ?_, ?_⟩ <;>
            simp [readUser, dispatch, issue, authReducer]
      | undefined =>
          refine ⟨typeErrorMessage false "id", ?_, ?_⟩ <;>
            simp [readUser, dispatch, issue, authReducer]
      | object u =>
          simp only [hr, readUser] at h
          exact Bool.noConfusion h

/-- C15, at a registration that the backend rejects with
`Email already registered`, made while a session is held. -/
theorem register_failure_witness :
    (register sampleEnv (rejectingBackend "Email already registered") (sampleUserData .undefined)
        loggedInWorld).2.success = false ∧
      ∃ m : String,
        (register sampleEnv (rejectingBackend "Email already registered") (sampleUserData .undefined)
          loggedInWorld).2 = { success := false, user := none, error := some m } ∧
        (register sampleEnv (rejectingBackend "Email already registered") (sampleUserData .undefined)
          loggedInWorld).1.state =
          { user := none, isAuthenticated := false, loading := false, error := some m } :=
  ⟨by decide,
    register_failure sampleEnv (rejectingBackend "Email already registered") (sampleUserData .undefined)
      loggedInWorld (by decide)⟩

/-! ### The start of an operation -/

/-- The first of the actions appended to a trace. -/
theorem firstDispatch_append (before after : World) (action : Action) (rest : List Action)
    (h : after.dispatched = before.dispatched ++ action :: rest) :
    firstDispatch before after = some action := by
  simp [firstDispatch, h]

/-- The actions `login` dispatches. -/
theorem login_dispatched (env : Env) (api : Backend) (credentials : LoginArgs) (w : World) :
    ∃ action, (login env api credentials w).1.dispatched =
      w.dispatched ++ Action.LOGIN_START :: [action] := by
  cases ht : loginTry env api credentials w.storage with
  | error m =>
      refine ⟨.LOGIN_FAILURE m, ?_⟩
      rw [login_error env api credentials w m ht]
      simp [dispatch, issue]
  | ok p =>
      have h2 : loginTry env api credentials
          (issue (dispatch w .LOGIN_START)
            (.getMe credentials.email credentials.password)).storage = .ok p := ht
      refine ⟨.LOGIN_SUCCESS (some p.2), ?_⟩
      unfold login
      simp only [h2]
      simp [dispatch, issue]

/-- The actions `changePassword` dispatches. -/
theorem changePassword_dispatched (api : Backend) (currentPassword newPassword : String)
    (w : World) :
    (changePassword api currentPassword newPassword w).1.dispatched =
      w.dispatched ++ Action.SET_LOADING true :: [Action.SET_LOADING false] := by
  cases hc : getCredentials w.storage with
  | none =>
      rw [changePassword_no_credentials api currentPassword newPassword w hc]
      simp [dispatch]
  | some creds =>
      have h2 : getCredentials (dispatch w (.SET_LOADING true)).storage = some creds := hc
      unfold changePassword
      simp only [h2]
      cases hapi : changePasswordApi api currentPassword newPassword creds.email
          creds.password with
      | error m => simp [dispatch, issue]
      | ok v => simp [dispatch, issue]

/-- C16 as stated fails: `changePassword`, called while an error is held,
begins with `SET_LOADING(true)`, and the state right after that dispatch still
holds the error. -/
theorem changePassword_start_keeps_error :
    staleErrorWorld.state.error = some "Bad credentials" ∧
      firstDispatch staleErrorWorld
        (changePassword (sampleBackend (.str "CUSTOMER")) "old" "new" staleErrorWorld).1 =
        some (.SET_LOADING true) ∧
      Option.map AuthState.error (stateAfterFirstDispatch staleErrorWorld
        (changePassword (sampleBackend (.str "CUSTOMER")) "old" "new" staleErrorWorld).1) =
        some (some "Bad credentials") ∧
      Option.map AuthState.error (stateAfterFirstDispatch staleErrorWorld
        (changePassword (sampleBackend (.str "CUSTOMER")) "old" "new" staleErrorWorld).1) ≠
        some none := by
  decide

/-- The actions `updateProfile` dispatches. -/
theorem updateProfile_dispatched (env : Env) (api : Backend) (captured : AuthState)
    (updates : ProfileUpdates) (w : World) :
    ∃ action, (updateProfile env api captured updates w).1.dispatched =
      w.dispatched ++ Action.SET_LOADING true :: [action] := by
  cases hc : getCredentials w.storage with
  | none =>
      rw [updateProfile_unloadable env api captured updates w hc]
      exact ⟨.LOGIN_FAILURE "Please re-login to update profile", by simp [dispatch]⟩
  | some creds =>
      have h2 : getCredentials (dispatch w (.SET_LOADING true)).storage = some creds := hc
      unfold updateProfile
      simp only [h2]
      cases hapi : updateProfileApi api updates.email updates.name updates.phone creds.email
          creds.password with
      | error m => exact ⟨.LOGIN_FAILURE m, by simp [dispatch, issue]⟩
      | ok updated =>
          cases updated with
          | null =>
              exact ⟨.LOGIN_FAILURE (typeErrorMessage true "id"), by
                simp [readUser, dispatch, issue]⟩
          | undefined =>
              exact ⟨.LOGIN_FAILURE (typeErrorMessage false "id"), by
                simp [readUser, dispatch, issue]⟩
          | object u =>
              exact ⟨.LOGIN_SUCCESS (some (normalizeUpdate env captured u)), by
                simp [readUser, dispatch, issue]⟩

/-- C16, amended: `login` and `register` clear the error at their start, the
state right after their first dispatch (`LOGIN_START`) has `error = null`;
`updateProfile` and `changePassword` begin with `SET_LOADING(true)`, and the
state right after that first dispatch has `loading = true` and the error as it
was. -/
theorem first_dispatch_error (env : Env) (api : Backend) (credentials : LoginArgs)
    (userData : UserData) (captured : AuthState) (updates : ProfileUpdates)
    (currentPassword newPassword : String) (w : World) :
    stateAfterFirstDispatch w (login env api credentials w).1 =
        some { w.state with loading := true, error := none } ∧
      stateAfterFirstDispatch w (register env api userData w).1 =
        some { w.state with loading := true, error := none } ∧
      stateAfterFirstDispatch w (updateProfile env api captured updates w).1 =
        some { w.state with loading := true } ∧
      stateAfterFirstDispatch w (changePassword api currentPassword newPassword w).1 =
        some { w.state with loading := true } := by
  refine ⟨?_, ?_, ?_, ?_⟩
  · obtain ⟨action, ha⟩ := login_dispatched env api credentials w
    rw [stateAfterFirstDispatch, firstDispatch_append w _ _ _ ha]
    rfl
  · obtain ⟨action, ha⟩ := register_world env api userData w
    have hd : (register env api userData w).1.dispatched =
        w.dispatched ++ Action.LOGIN_START :: [action] := by
      rw [ha]
      simp [dispatch, issue]
    rw [stateAfterFirstDispatch, firstDispatch_append w _ _ _ hd]
    rfl
  · obtain ⟨action, ha⟩ := updateProfile_dispatched env api captured updates w
    rw [stateAfterFirstDispatch, firstDispatch_append w _ _ _ ha]
    rfl
  · rw [stateAfterFirstDispatch,
      firstDispatch_append w _ _ _ (changePassword_dispatched api currentPassword newPassword w)]
    rfl

/-! ### Failures of the backend -/

/-- C17 as stated fails: a `changePassword` that the backend rejects with
`Wrong password` returns that message, and the state's error is not that
message: it stays `null`. -/
theorem changePassword_rejection_not_stored :
    (changePassword (rejectingBackend "Wrong password") "old" "new" loggedInWorld).2 =
        { success := false, user := none, error := some "Wrong password" } ∧
      (changePassword (rejectingBackend "Wrong password") "old" "new"
        loggedInWorld).1.state.error = none ∧
      (changePassword (rejectingBackend "Wrong password") "old" "new"
        loggedInWorld).1.state.error ≠ some "Wrong password" := by
  decide

/-- C17, amended: when the backend rejects the request of `login`, `register`
or `updateProfile` with a raw error, the operation returns the normalized
message and the state afterwards has that message as `error`; when it rejects
the request of `changePassword`, the operation returns the normalized message
and the state's `error` is left as it was. -/
theorem backend_rejection_surfaced (env : Env) (api : Backend) (w : World) (err : RawError)
    (credentials : LoginArgs) (userData : UserData) (captured : AuthState) (updates : ProfileUpdates)
    (currentPassword newPassword : String) (creds : Credentials) :
    (api.getMe credentials.email credentials.password = .error err →
        (login env api credentials w).2 =
          { success := false, user := none,
            error := some (toError err (.str "Unauthorized")) } ∧
        (login env api credentials w).1.state.error =
          some (toError err (.str "Unauthorized"))) ∧
      (api.postRegister (registerBody userData) = .error err →
        (register env api userData w).2 =
          { success := false, user := none,
            error := some (toError err (.str "Registration failed")) } ∧
        (register env api userData w).1.state.error =
          some (toError err (.str "Registration failed"))) ∧
      (getCredentials w.storage = some creds →
        api.putProfile updates.email updates.name updates.phone creds.email creds.password =
          .error err →
        (updateProfile env api captured updates w).2 =
          { success := false, user := none,
            error := some (toError err (.str "Failed to update profile")) } ∧
        (updateProfile env api captured updates w).1.state.error =
          some (toError err (.str "Failed to update profile"))) ∧
      (getCredentials w.storage = some creds →
        api.postChangePassword currentPassword newPassword creds.email creds.password =
          .error err →
        (changePassword api currentPassword newPassword w).2 =
          { success := false, user := none,
            error := some (toError err (.str "Failed to change password")) } ∧
        (changePassword api currentPassword newPassword w).1.state.error = w.state.error) := by
  refine ⟨?_, ?_, ?_, ?_⟩
  · intro h
    have htry : loginTry env api credentials w.storage =
        .error (toError err (.str "Unauthorized")) := by
      simp [loginTry, meApi, h]
    rw [login_error env api credentials w _ htry]
    exact ⟨rfl, rfl⟩
  · intro h
    have hr : registerApi api (registerBody userData) =
        .error (toError err (.str "Registration failed")) := by
      have h2 : api.postRegister
          { email := (registerBody userData).email, password := (registerBody userData).password,
            role := (registerBody userData).role, name := (registerBody userData).name,
            phone := (registerBody userData).phone } = .error err := h
      simp only [registerApi, h2]
    have heq : register env api userData w =
        (dispatch (issue (dispatch w .LOGIN_START) (.postRegister (registerBody userData)))
            (.LOGIN_FAILURE (toError err (.str "Registration failed"))),
          { success := false, user := none,
            error := some (toError err (.str "Registration failed")) }) := by
      unfold register
      simp only [hr]
    rw [heq]
    exact ⟨rfl, rfl⟩
  · intro hc h
    have h2 : getCredentials (dispatch w (.SET_LOADING true)).storage = some creds := hc
    have heq : updateProfile env api captured updates w =
        (dispatch (issue (dispatch w (.SET_LOADING true))
            (.putProfile updates.email updates.name updates.phone creds.email creds.password))
            (.LOGIN_FAILURE (toError err (.str "Failed to update profile"))),
          { success := false, user := none,
            error := some (toError err (.str "Failed to update profile")) }) := by
      unfold updateProfile
      simp only [h2, updateProfileApi, h]
    rw [heq]
    exact ⟨rfl, rfl⟩
  · intro hc h
    have h2 : getCredentials (dispatch w (.SET_LOADING true)).storage = some creds := hc
    have heq : changePassword api currentPassword newPassword w =
        (dispatch (issue (dispatch w (.SET_LOADING true))
            (.postChangePassword currentPassword newPassword creds.email creds.password))
            (.SET_LOADING false),
          { success := false, user := none,
            error := some (toError err (.str "Failed to change password")) }) := by
      unfold changePassword
      simp only [h2, changePasswordApi, h]
    rw [heq]
    exact ⟨rfl, rfl⟩

/-- C17, amended, at a backend that rejects every request with
`Service down`, after a login. -/
theorem backend_rejection_surfaced_witness :
    ((rejectingBackend "Service down").getMe "a@b.com" "pw" =
        .error (.error (some (.object (.str "Service down"))) .undefined) ∧
      (login sampleEnv (rejectingBackend "Service down")
        { email := "a@b.com", password := "pw", selectedRole := none }
        loggedInWorld).1.state.error = some "Service down") ∧
    ((rejectingBackend "Service down").postRegister (registerBody (sampleUserData .undefined)) =
        .error (.error (some (.object (.str "Service down"))) .undefined) ∧
      (register sampleEnv (rejectingBackend "Service down") (sampleUserData .undefined)
        loggedInWorld).1.state.error = some "Service down") ∧
    (getCredentials loggedInWorld.storage = some { email := "a@b.com", password := "old" } ∧
      (rejectingBackend "Service down").putProfile .undefined (.str "X") .undefined "a@b.com"
        "old" = .error (.error (some (.object (.str "Service down"))) .undefined) ∧
      (updateProfile sampleEnv (rejectingBackend "Service down") loggedInWorld.state
        { email := .undefined, name := .str "X", phone := .undefined }
        loggedInWorld).1.state.error = some "Service down") ∧
    ((rejectingBackend "Service down").postChangePassword "old" "new" "a@b.com" "old" =
        .error (.error (some (.object (.str "Service down"))) .undefined) ∧
      (changePassword (rejectingBackend "Service down") "old" "new" loggedInWorld).2 =
        { success := false, user := none, error := some "Service down" } ∧
      (changePassword (rejectingBackend "Service down") "old" "new"
        loggedInWorld).1.state.error = loggedInWorld.state.error) :=
  ⟨⟨rfl, ((backend_rejection_surfaced sampleEnv (rejectingBackend "Service down") loggedInWorld
      (.error (some (.object (.str "Service down"))) .undefined)
      { email := "a@b.com", password := "pw", selectedRole := none } (sampleUserData .undefined) loggedInWorld.state
      { email := .undefined, name := .str "X", phone := .undefined } "old" "new"
      { email := "a@b.com", password := "old" }).1 rfl).2⟩,
    ⟨rfl, ((backend_rejection_surfaced sampleEnv (rejectingBackend "Service down") loggedInWorld
      (.error (some (.object (.str "Service down"))) .undefined)
      { email := "a@b.com", password := "pw", selectedRole := none } (sampleUserData .undefined) loggedInWorld.state
      { email := .undefined, name := .str "X", phone := .undefined } "old" "new"
      { email := "a@b.com", password := "old" }).2.1 rfl).2⟩,
    ⟨by decide, rfl,
      ((backend_rejection_surfaced sampleEnv (rejectingBackend "Service down") loggedInWorld
        (.error (some (.object (.str "Service down"))) .undefined)
        { email := "a@b.com", password := "pw", selectedRole := none }
        (sampleUserData .undefined) loggedInWorld.state
        { email := .undefined, name := .str "X", phone := .undefined } "old" "new"
        { email := "a@b.com", password := "old" }).2.2.1 (by decide) rfl).2⟩,
    ⟨rfl,
      (backend_rejection_surfaced sampleEnv (rejectingBackend "Service down") loggedInWorld
        (.error (some (.object (.str "Service down"))) .undefined)
        { email := "a@b.com", password := "pw", selectedRole := none }
        (sampleUserData .undefined) loggedInWorld.state
        { email := .undefined, name := .str "X", phone := .undefined } "old" "new"
        { email := "a@b.com", password := "old" }).2.2.2 (by decide) rfl⟩⟩

/-! ### Validation failures and requests -/

/-- C18 as stated fails: the role mismatch of `login` is raised after the
request for the identity has been issued. -/
theorem role_mismatch_after_request :
    (login sampleEnv (sampleBackend (.str "ROLE_CUSTOMER"))
        { email := "a@b.com", password := "pw", selectedRole := some "officer" }
        freshWorld).2.error =
        some "Access denied. Your account role is ROLE_CUSTOMER, but you selected officer." ∧
      requestsIssued freshWorld (login sampleEnv (sampleBackend (.str "ROLE_CUSTOMER"))
        { email := "a@b.com", password := "pw", selectedRole := some "officer" }
        freshWorld).1 = [.getMe "a@b.com" "pw"] ∧
      requestsIssued freshWorld (login sampleEnv (sampleBackend (.str "ROLE_CUSTOMER"))
        { email := "a@b.com", password := "pw", selectedRole := some "officer" }
        freshWorld).1 ≠ [] := by
  decide

/-- C18, amended: missing credentials in `updateProfile` and in
`changePassword` are raised before any request, none is issued; the role
mismatch of `login` is raised after the one request that fetches the identity
whose role is checked, and before anything is written to the storage. -/
theorem validation_and_requests (env : Env) (api : Backend) (w : World)
    (captured : AuthState) (updates : ProfileUpdates) (currentPassword newPassword : String)
    (credentials : LoginArgs) (u : BackendUser) (e : String) :
    (getCredentials w.storage = none →
        requestsIssued w (updateProfile env api captured updates w).1 = [] ∧
        requestsIssued w (changePassword api currentPassword newPassword w).1 = []) ∧
      (api.getMe credentials.email credentials.password = .ok (.object u) →
        credentials.selectedRole = some e → e ≠ "" →
        roleAccepted env (.object u) (some e) = false →
        (login env api credentials w).2.error = some (accessDenied u.role e) ∧
        requestsIssued w (login env api credentials w).1 =
          [.getMe credentials.email credentials.password] ∧
        (login env api credentials w).1.storage = w.storage) := by
  refine ⟨?_, ?_⟩
  · intro hc
    rw [updateProfile_unloadable env api captured updates w hc,
      changePassword_no_credentials api currentPassword newPassword w hc]
    constructor <;> simp [requestsIssued, dispatch]
  · intro hme hsel he hrej
    have htry : loginTry env api credentials w.storage = .error (accessDenied u.role e) := by
      unfold loginTry meApi
      rw [hme, hsel]
      simp [roleCheck_rejects env u e he hrej]
    rw [login_error env api credentials w _ htry]
    refine ⟨rfl, ?_, rfl⟩
    simp [requestsIssued, dispatch, issue]

/-- C18, amended, at operations on an empty storage and at a login with
backend role `ROLE_CUSTOMER` and selected role `officer`. -/
theorem validation_and_requests_witness :
    (getCredentials freshWorld.storage = none ∧
      requestsIssued freshWorld
        (updateProfile sampleEnv (sampleBackend (.str "ROLE_CUSTOMER")) freshWorld.state
          { email := .undefined, name := .str "X", phone := .undefined } freshWorld).1 = [] ∧
      requestsIssued freshWorld
        (changePassword (sampleBackend (.str "ROLE_CUSTOMER")) "old" "new" freshWorld).1 = []) ∧
    ((sampleBackend (.str "ROLE_CUSTOMER")).getMe "a@b.com" "pw" =
        .ok (.object (sampleUser (.str "ROLE_CUSTOMER"))) ∧
      "officer" ≠ "" ∧
      roleAccepted sampleEnv (.object (sampleUser (.str "ROLE_CUSTOMER"))) (some "officer") = false ∧
      requestsIssued freshWorld (login sampleEnv (sampleBackend (.str "ROLE_CUSTOMER"))
        { email := "a@b.com", password := "pw", selectedRole := some "officer" }
        freshWorld).1 = [.getMe "a@b.com" "pw"]) :=
  ⟨⟨by decide,
      (validation_and_requests sampleEnv (sampleBackend (.str "ROLE_CUSTOMER")) freshWorld freshWorld.state
        { email := .undefined, name := .str "X", phone := .undefined } "old" "new"
        { email := "a@b.com", password := "pw", selectedRole := some "officer" }
        (sampleUser (.str "ROLE_CUSTOMER")) "officer").1 (by decide)⟩,
    ⟨rfl, by decide, by decide,
      ((validation_and_requests sampleEnv (sampleBackend (.str "ROLE_CUSTOMER")) freshWorld freshWorld.state
        { email := .undefined, name := .str "X", phone := .undefined } "old" "new"
        { email := "a@b.com", password := "pw", selectedRole := some "officer" }
        (sampleUser (.str "ROLE_CUSTOMER")) "officer").2 rfl rfl (by decide)
        (by decide)).2.1⟩⟩

/-! ### Actions the reducer does not know -/

/-- C19 as stated fails: on an action whose type is none of the six, the
reducer does not fail; it returns the state it was given. -/
theorem authReducer_unknown_returns :
    "PING" ∉ AUTH_ACTIONS ∧ authReducer initialState (.OTHER "PING") = initialState := by
  decide

/-- C19, amended: for every state and every action whose type is none of
`LOGIN_START`, `LOGIN_SUCCESS`, `LOGIN_FAILURE`, `LOGOUT`, `CLEAR_ERROR` and
`SET_LOADING`, `authReducer` returns the state unchanged. -/
theorem authReducer_unknown_unchanged (state : AuthState) (type : String)
    (_h : type ∉ AUTH_ACTIONS) : authReducer state (.OTHER type) = state :=
  rfl

/-- C19, amended, at an action of type `PING` in the state after a login. -/
theorem authReducer_unknown_unchanged_witness :
    "PING" ∉ AUTH_ACTIONS ∧
      authReducer loggedInWorld.state (.OTHER "PING") = loggedInWorld.state :=
  ⟨by decide, authReducer_unknown_unchanged loggedInWorld.state "PING" (by decide)⟩

end AuthContext


namespace Js

/-! ### String conversion of truthy values -/

theorem toDigitsCore_ne_nil (base fuel n : Nat) (ds : List Char) (h : ds ≠ []) :
    Nat.toDigitsCore base fuel n ds ≠ [] := by
  induction fuel generalizing n ds with
  | zero => simpa [Nat.toDigitsCore] using h
  | succ fuel ih =>
      simp only [Nat.toDigitsCore]
      split
      · simp
      · exact ih _ _ (by simp)

theorem nat_repr_ne_empty (n : Nat) : Nat.repr n ≠ "" := by
  intro h
  have hd : (Nat.repr n).data = [] := by rw [h]
  have hne : Nat.toDigits 10 n ≠ [] := by
    simp only [Nat.toDigits, Nat.toDigitsCore]
    split
    · simp
    · exact toDigitsCore_ne_nil _ _ _ _ (by simp)
  exact hne (by simpa [Nat.repr, List.asString] using hd)

theorem int_toString_ne_empty (n : Int) : toString n ≠ "" := by
  cases n with
  | ofNat m => exact nat_repr_ne_empty m
  | negSucc m =>
      intro h
      have hd := congrArg String.data h
      have hd2 : ("-" ++ Nat.repr (m + 1)).data = [] := hd
      rw [String.data_append] at hd2
      simp at hd2

/-- A truthy value that is not an array converts to a non-empty string. -/
theorem toStr_ne_empty (v : JsValue) (ht : truthy v = true) (ha : isArray v = false) :
    toStr v ≠ "" := by
  cases v with
  | undefined => simp [truthy] at ht
  | null => simp [truthy] at ht
  | bool b =>
      cases b with
      | true => decide
      | false => simp [truthy] at ht
  | num n => exact int_toString_ne_empty n
  | str s => simpa [truthy, toStr] using ht
  | array items => simp [isArray] at ha

end Js

namespace AuthApi

/-- The `||` chain of `toError`, read from the left. -/
theorem toError_first_truthy (err : RawError) (fallback : JsValue) :
    toError err fallback =
      (if truthy (dataMessage err) then toStr (dataMessage err)
      else if truthy (dataString err) then toStr (dataString err)
      else if truthy (ownMessage err) then toStr (ownMessage err)
      else if truthy fallback then toStr fallback
      else "Request failed") := by
  unfold toError Js.or
  split
  · rename_i h1
    simp [h1]
  · split
    · rename_i h1 h2
      simp [h1, h2]
    · split
      · rename_i h1 h2 h3
        simp [h1, h2, h3]
      · split
        · rename_i h1 h2 h3 h4
          simp [h1, h2, h3, h4]
        · rename_i h1 h2 h3 h4
          simp [h1, h2, h3, h4, toStr]

/-- C20: the message of `toError` is chosen by precedence. When the response
body is an object with a non-empty (truthy) `message` field, it is that field;
when the body is a non-empty string, it is the body; when there is neither (no
response, a body without such a field, a body that is not such a string), it
is the error's own message when non-empty, otherwise the fallback when
non-empty, otherwise `Request failed`; for an error that is `null` or
`undefined` it is the fallback when non-empty, otherwise `Request failed`.
The `toError` of `customerApi.js` chooses the same message. -/
theorem toError_precedence (response : Option Body) (own fallback bodyMessage : JsValue)
    (bodyText : String) (err : RawError) :
    (response = some (.object bodyMessage) → truthy bodyMessage = true →
        toError (.error response own) fallback = toStr bodyMessage) ∧
      (response = some (.scalar (.str bodyText)) → bodyText ≠ "" →
        toError (.error response own) fallback = bodyText) ∧
      ((response = none ∨ (∃ m, response = some (.object m) ∧ truthy m = false) ∨
          (∃ v, response = some (.scalar v) ∧ ∀ t, v = .str t → t = "")) →
        (truthy own = true → toError (.error response own) fallback = toStr own) ∧
        (truthy own = false → truthy fallback = true →
          toError (.error response own) fallback = toStr fallback) ∧
        (truthy own = false → truthy fallback = false →
          toError (.error response own) fallback = "Request failed")) ∧
      (toError .nullish fallback =
        if truthy fallback then toStr fallback else "Request failed") ∧
      CustomerApi.toError err fallback = toError err fallback := by
  refine ⟨?_, ?_, ?_, ?_, rfl⟩
  · intro hr ht
    subst hr
    rw [toError_first_truthy]
    simp [dataMessage, ht]
  · intro hr ht
    subst hr
    rw [toError_first_truthy]
    simp [dataMessage, dataString, truthy, toStr, ht]
  · intro hneither
    have hm : truthy (dataMessage (.error response own)) = false := by
      rcases hneither with h | ⟨m, h, hm⟩ | ⟨v, h, -⟩
      · subst h; rfl
      · subst h; exact hm
      · subst h; rfl
    have hs : truthy (dataString (.error response own)) = false := by
      rcases hneither with h | ⟨m, h, -⟩ | ⟨v, h, hv⟩
      · subst h; rfl
      · subst h; rfl
      · subst h
        cases v with
        | str t =>
            have ht := hv t rfl
            subst ht
            rfl
        | undefined => rfl
        | null => rfl
        | bool b => rfl
        | num n => rfl
        | array items => rfl
    rw [toError_first_truthy]
    refine ⟨?_, ?_, ?_⟩
    · intro ho
      simp [hm, hs, ownMessage, ho]
    · intro ho hf
      simp [hm, hs, ownMessage, ho, hf]
    · intro ho hf
      simp [hm, hs, ownMessage, ho, hf]
  · rw [toError_first_truthy]
    simp [dataMessage, dataString, ownMessage, truthy]

/-- C20, at an error with a structured message, one whose body is a string,
one with neither and a message of its own, one with nothing and a fallback,
and one with nothing at all. -/
theorem toError_precedence_witness :
    toError (.error (some (.object (.str "Email taken"))) (.str "Request failed with 409"))
        (.str "Registration failed") = "Email taken" ∧
      toError (.error (some (.scalar (.str "Bad gateway"))) (.str "Request failed with 502"))
        (.str "Unauthorized") = "Bad gateway" ∧
      toError (.error none (.str "Network Error")) (.str "Unauthorized") = "Network Error" ∧
      toError (.error (some (.object .undefined)) .undefined) (.str "Unauthorized") =
        "Unauthorized" ∧
      toError (.error (some (.scalar .undefined)) .undefined) .undefined = "Request failed" :=
  ⟨(toError_precedence (some (.object (.str "Email taken"))) (.str "Request failed with 409")
      (.str "Registration failed") (.str "Email taken") "" .nullish).1 rfl rfl,
    (toError_precedence (some (.scalar (.str "Bad gateway"))) (.str "Request failed with 502")
      (.str "Unauthorized") .undefined "Bad gateway" .nullish).2.1 rfl (by decide),
    ((toError_precedence none (.str "Network Error") (.str "Unauthorized") .undefined ""
      .nullish).2.2.1 (Or.inl rfl)).1 rfl,
    ((toError_precedence (some (.object .undefined)) .undefined (.str "Unauthorized") .undefined
      "" .nullish).2.2.1 (Or.inr (Or.inl ⟨.undefined, rfl, rfl⟩))).2.1 rfl rfl,
    ((toError_precedence (some (.scalar .undefined)) .undefined .undefined .undefined ""
      .nullish).2.2.1 (Or.inr (Or.inr ⟨.undefined, rfl, fun t h => by cases h⟩))).2.2 rfl rfl⟩

/-- C21 fails on the code: for a response body whose `message` is the empty
array, which is truthy and converts to the empty string, the message of
`toError` is the empty string, although a fallback is given. -/
theorem toError_empty_for_empty_array :
    toError (.error (some (.object (.array []))) .undefined) (.str "Unauthorized") = "" := by
  decide

/-- For every raw error and fallback `toError` returns a message (it is a
total function); the message is a non-empty string whenever the body's
`message` field, the error's own message and the fallback are not arrays; and
it is `Request failed` when there is no structured message, no string body, no
message of the error's own and no fallback. -/
theorem toError_message (err : RawError) (fallback : JsValue) :
    (isArray (dataMessage err) = false → isArray (ownMessage err) = false →
        isArray fallback = false → toError err fallback ≠ "") ∧
      (truthy (dataMessage err) = false → truthy (dataString err) = false →
        truthy (ownMessage err) = false → truthy fallback = false →
        toError err fallback = "Request failed") := by
  have hds : isArray (dataString err) = false := by
    unfold dataString
    split <;> rfl
  rw [toError_first_truthy err fallback]
  constructor
  · intro h1 h3 h4
    split
    · rename_i ht; exact toStr_ne_empty _ ht h1
    · split
      · rename_i ht; exact toStr_ne_empty _ ht hds
      · split
        · rename_i ht; exact toStr_ne_empty _ ht h3
        · split
          · rename_i ht; exact toStr_ne_empty _ ht h4
          · decide
  · intro h1 h2 h3 h4
    simp [h1, h2, h3, h4]

/-- The message at the four kinds of error the specification lists: a
structured message, a bare string body, neither with a fallback, neither
without. -/
theorem toError_message_witness :
    (toError (.error (some (.object (.str "Email taken"))) (.str "Request failed with 409"))
        (.str "Registration failed") ≠ "") ∧
      (toError (.error (some (.scalar (.str "Bad gateway"))) .undefined) .undefined ≠ "") ∧
      (toError .nullish (.str "Unauthorized") ≠ "") ∧
      toError (.error none .undefined) .undefined = "Request failed" :=
  ⟨(toError_message (.error (some (.object (.str "Email taken")))
      (.str "Request failed with 409")) (.str "Registration failed")).1 rfl rfl rfl,
    (toError_message (.error (some (.scalar (.str "Bad gateway"))) .undefined) .undefined).1
      rfl rfl rfl,
    (toError_message .nullish (.str "Unauthorized")).1 rfl rfl rfl,
    (toError_message (.error none .undefined) .undefined).2 rfl rfl rfl rfl⟩

end AuthApi

namespace AuthContext

/-! ### The Credential Vault -/

/-- C22: `getCredentials` returns a pair exactly when the `basic_email` and
`basic_password` slots are both present and non-empty, and the pair is then
made of those two values; it returns `null` exactly when one of the slots is
missing or empty, so never a pair with one half. -/
theorem getCredentials_iff (storage : Storage) :
    (∀ creds : Credentials, getCredentials storage = some creds ↔
        (getItem storage "basic_email" = some creds.email ∧ creds.email ≠ "" ∧
          getItem storage "basic_password" = some creds.password ∧ creds.password ≠ "")) ∧
      (getCredentials storage = none ↔
        (getItem storage "basic_email" = none ∨ getItem storage "basic_email" = some "" ∨
          getItem storage "basic_password" = none ∨
          getItem storage "basic_password" = some "")) := by
  unfold getCredentials
  cases he : getItem storage "basic_email" with
  | none => simp
  | some email =>
      cases hp : getItem storage "basic_password" with
      | none => simp
      | some password =>
          by_cases h1 : email = ""
          · simp only [h1]
            refine ⟨fun creds => ?_, by simp⟩
            constructor
            · intro h
              simp at h
            · rintro ⟨h2, h3, -, -⟩
              exact absurd (Option.some.inj h2).symm h3
          · by_cases h2 : password = ""
            · simp only [h2]
              refine ⟨fun creds => ?_, by simp⟩
              constructor
              · intro h
                simp at h
              · rintro ⟨-, -, h4, h5⟩
                exact absurd (Option.some.inj h4).symm h5
            · refine ⟨fun creds => ?_, by simp [h1, h2]⟩
              constructor
              · intro h
                have hc : creds = { email := email, password := password } := by
                  simp [h1, h2] at h
                  exact h.symm
                subst hc
                exact ⟨rfl, h1, rfl, h2⟩
              · rintro ⟨h3, -, h4, -⟩
                have e1 := Option.some.inj h3
                have e2 := Option.some.inj h4
                cases creds
                simp_all

/-- C23: `setCredentials` leaves the storage, and so both Vault slots, as it
was when either argument is empty or absent; otherwise it writes both slots,
and nothing else, so that for a non-empty email and password a following load
returns that pair; it never writes one slot without the other. -/
theorem setCredentials_all_or_nothing (storage : Storage) (email password : JsValue) :
    ((truthy email = false ∨ truthy password = false) →
        setCredentials storage email password = storage) ∧
      (truthy email = true → truthy password = true →
        getItem (setCredentials storage email password) "basic_email" = some (toStr email) ∧
        getItem (setCredentials storage email password) "basic_password" =
          some (toStr password) ∧
        ∀ key, key ≠ "basic_email" → key ≠ "basic_password" →
          getItem (setCredentials storage email password) key = getItem storage key) ∧
      (∀ e p : String, email = .str e → password = .str p → e ≠ "" → p ≠ "" →
        getCredentials (setCredentials storage email password) =
          some { email := e, password := p }) := by
  refine ⟨?_, ?_, ?_⟩
  · rintro (h | h) <;> simp [setCredentials, h]
  · intro h1 h2
    refine ⟨?_, ?_, ?_⟩
    · simp [setCredentials, h1, h2, getItem, setItem]
    · simp [setCredentials, h1, h2, getItem, setItem]
    · intro key k1 k2
      simp [setCredentials, h1, h2, getItem, setItem, k1, k2]
  · intro e p he hp hne hnp
    rw [he, hp]
    exact getCredentials_setCredentials storage e p hne hnp

/-- C23, at a save of `a@b.com` with `pw` and at a save with an absent
password, over the storage an earlier login left. -/
theorem setCredentials_all_or_nothing_witness :
    (truthy .undefined = false ∧
      setCredentials loggedInWorld.storage (.str "x@y.org") .undefined =
        loggedInWorld.storage) ∧
    (truthy (.str "x@y.org") = true ∧ truthy (.str "pw") = true ∧
      getItem (setCredentials loggedInWorld.storage (.str "x@y.org") (.str "pw"))
        "basic_email" = some "x@y.org" ∧
      getItem (setCredentials loggedInWorld.storage (.str "x@y.org") (.str "pw"))
        "basic_password" = some "pw") ∧
    getCredentials (setCredentials loggedInWorld.storage (.str "x@y.org") (.str "pw")) =
      some { email := "x@y.org", password := "pw" } :=
  ⟨⟨rfl, (setCredentials_all_or_nothing loggedInWorld.storage (.str "x@y.org") .undefined).1
      (Or.inr rfl)⟩,
    ⟨by decide, by decide,
      ((setCredentials_all_or_nothing loggedInWorld.storage (.str "x@y.org") (.str "pw")).2.1
        (by decide) (by decide)).1,
      ((setCredentials_all_or_nothing loggedInWorld.storage (.str "x@y.org") (.str "pw")).2.1
        (by decide) (by decide)).2.1⟩,
    (setCredentials_all_or_nothing loggedInWorld.storage (.str "x@y.org") (.str "pw")).2.2
      "x@y.org" "pw" rfl rfl (by decide) (by decide)⟩

/-! ### What the operations leave in the storage -/

/-- A `try` block of `login` that ends well has written the storage of a
successful login. -/
theorem loginTry_ok_storage (env : Env) (api : Backend) (credentials : LoginArgs)
    (storage : Storage) (p : Storage × Identity)
    (h : loginTry env api credentials storage = .ok p) :
    ∃ u, p = (storageAfterLogin env credentials u storage, normalizeLogin env u) := by
  unfold loginTry at h
  split at h
  · exact Except.noConfusion h
  · split at h
    · exact Except.noConfusion h
    · split at h
      · exact Except.noConfusion h
      · rename_i u hu
        refine ⟨u, ?_⟩
        have := Except.ok.inj h
        rw [← this]
        rfl

/-- The storage `login` leaves: the one it found, or the one of a successful
login. -/
theorem login_storage (env : Env) (api : Backend) (credentials : LoginArgs) (w : World) :
    (login env api credentials w).1.storage = w.storage ∨
      ∃ u, (login env api credentials w).1.storage =
        storageAfterLogin env credentials u w.storage := by
  cases ht : loginTry env api credentials w.storage with
  | error m =>
      left
      rw [login_error env api credentials w m ht]
      rfl
  | ok p =>
      right
      obtain ⟨u, hu⟩ := loginTry_ok_storage env api credentials w.storage p ht
      have h2 : loginTry env api credentials
          (issue (dispatch w .LOGIN_START)
            (.getMe credentials.email credentials.password)).storage = .ok p := ht
      refine ⟨u, ?_⟩
      unfold login
      simp only [h2]
      rw [hu]
      rfl

/-- The storage `updateProfile` leaves: the one it found, or that one with
the `user` slot written. -/
theorem updateProfile_storage (env : Env) (api : Backend)
    (captured : AuthState) (updates : ProfileUpdates)
    (w : World) :
    (updateProfile env api captured updates w).1.storage = w.storage ∨
      ∃ record, (updateProfile env api captured updates w).1.storage =
        setItem w.storage "user" record := by
  cases hs : (updateProfile env api captured updates w).2.success with
  | true =>
      right
      obtain ⟨creds, u, -, -, heq⟩ := updateProfile_success env api captured updates w hs
      exact ⟨_, by rw [heq]; rfl⟩
  | false =>
      left
      cases hc : getCredentials w.storage with
      | none =>
          rw [updateProfile_unloadable env api captured updates w hc]
          rfl
      | some creds =>
          have h2 : getCredentials (dispatch w (.SET_LOADING true)).storage = some creds := hc
          unfold updateProfile at hs ⊢
          simp only [h2] at hs ⊢
          cases hapi : updateProfileApi api updates.email updates.name updates.phone creds.email
              creds.password with
          | error m => simp only [hapi]; rfl
          | ok updated =>
              cases updated with
              | null => simp only [hapi, readUser]; rfl
              | undefined => simp only [hapi, readUser]; rfl
              | object u =>
                  simp only [hapi, readUser] at hs
                  exact Bool.noConfusion hs

/-- The storage `changePassword` leaves: the one it found, or that one after
a save of the pair with the new password. -/
theorem changePassword_storage (api : Backend) (currentPassword newPassword : String)
    (w : World) :
    (changePassword api currentPassword newPassword w).1.storage = w.storage ∨
      ∃ email, (changePassword api currentPassword newPassword w).1.storage =
        setCredentials w.storage (.str email) (.str newPassword) := by
  cases hc : getCredentials w.storage with
  | none =>
      left
      rw [changePassword_no_credentials api currentPassword newPassword w hc]
      rfl
  | some creds =>
      have h2 : getCredentials (dispatch w (.SET_LOADING true)).storage = some creds := hc
      unfold changePassword
      simp only [h2]
      cases hapi : changePasswordApi api currentPassword newPassword creds.email
          creds.password with
      | error m => left; rfl
      | ok v => right; exact ⟨creds.email, rfl⟩

/-- The storage `checkAuthStatus` leaves is the one it found, and it issues no
request. -/
theorem checkAuthStatus_frame (parse : String → Except String (Option Identity)) (w : World) :
    (checkAuthStatus parse w).storage = w.storage ∧
      (checkAuthStatus parse w).requests = w.requests := by
  unfold checkAuthStatus
  split
  · split
    · split <;> exact ⟨rfl, rfl⟩
    · exact ⟨rfl, rfl⟩
  · exact ⟨rfl, rfl⟩

/-- Writing a slot removes none. -/
theorem setItem_keeps_present (storage : Storage) (key value slot : String)
    (h : getItem storage slot ≠ none) : getItem (setItem storage key value) slot ≠ none := by
  unfold getItem setItem
  split
  · simp
  · exact h

/-- Saving a pair removes no slot. -/
theorem setCredentials_keeps_present (storage : Storage) (email password : JsValue)
    (slot : String) (h : getItem storage slot ≠ none) :
    getItem (setCredentials storage email password) slot ≠ none := by
  unfold setCredentials
  split
  · exact setItem_keeps_present _ _ _ _ (setItem_keeps_present _ _ _ _ h)
  · exact h

/-- C24: none of `login`, `register`, `updateProfile`, `changePassword`,
`clearError` and the startup restoration removes a storage slot: a slot, such
as `user`, `token`, `basic_email` or `basic_password`, that is present before
the operation is present after it, whether the operation succeeds or fails. -/
theorem operations_keep_slots (env : Env) (api : Backend)
    (parse : String → Except String (Option Identity)) (credentials : LoginArgs)
    (userData : UserData) (captured : AuthState) (updates : ProfileUpdates) (currentPassword newPassword : String)
    (w : World) (slot : String) (h : getItem w.storage slot ≠ none) :
    getItem (login env api credentials w).1.storage slot ≠ none ∧
      getItem (register env api userData w).1.storage slot ≠ none ∧
      getItem (updateProfile env api captured updates w).1.storage slot ≠ none ∧
      getItem (changePassword api currentPassword newPassword w).1.storage slot ≠ none ∧
      getItem (clearError w).storage slot ≠ none ∧
      getItem (checkAuthStatus parse w).storage slot ≠ none := by
  refine ⟨?_, ?_, ?_, ?_, h, ?_⟩
  · rcases login_storage env api credentials w with hs | ⟨u, hs⟩
    · rw [hs]; exact h
    · rw [hs]
      exact setCredentials_keeps_present _ _ _ _
        (setItem_keeps_present _ _ _ _ (setItem_keeps_present _ _ _ _ h))
  · obtain ⟨action, ha⟩ := register_world env api userData w
    rw [ha]
    exact h
  · rcases updateProfile_storage env api captured updates w with hs | ⟨record, hs⟩
    · rw [hs]; exact h
    · rw [hs]
      exact setItem_keeps_present _ _ _ _ h
  · rcases changePassword_storage api currentPassword newPassword w with hs | ⟨email, hs⟩
    · rw [hs]; exact h
    · rw [hs]
      exact setCredentials_keeps_present _ _ _ _ h
  · rw [(checkAuthStatus_frame parse w).1]
    exact h

/-- C24, at the `basic_email` slot an earlier login wrote, over operations of
which the login and the password change succeed and the others fail. -/
theorem operations_keep_slots_witness :
    getItem loggedInWorld.storage "basic_email" ≠ none ∧
      getItem (login sampleEnv (sampleBackend (.str "CUSTOMER"))
        { email := "x@y.org", password := "pw", selectedRole := none }
        loggedInWorld).1.storage "basic_email" ≠ none ∧
      getItem (register sampleEnv (sampleBackend (.str "CUSTOMER")) (sampleUserData .undefined)
        loggedInWorld).1.storage "basic_email" ≠ none ∧
      getItem (updateProfile sampleEnv (sampleBackend (.str "CUSTOMER")) loggedInWorld.state
        { email := .undefined, name := .str "X", phone := .undefined }
        loggedInWorld).1.storage "basic_email" ≠ none ∧
      getItem (changePassword (sampleBackend (.str "CUSTOMER")) "old" "new"
        loggedInWorld).1.storage "basic_email" ≠ none ∧
      getItem (clearError loggedInWorld).storage "basic_email" ≠ none ∧
      getItem (checkAuthStatus sampleParse loggedInWorld).storage "basic_email" ≠ none :=
  ⟨by decide,
    operations_keep_slots sampleEnv (sampleBackend (.str "CUSTOMER")) sampleParse
      { email := "x@y.org", password := "pw", selectedRole := none } (sampleUserData .undefined) loggedInWorld.state
      { email := .undefined, name := .str "X", phone := .undefined } "old" "new"
      loggedInWorld "basic_email" (by decide)⟩

/-- C29: `updateProfile` never changes the Credential Vault: on every
outcome the `basic_email` and `basic_password` slots hold what they held, and
the Vault loads what it loaded, also when the response carries another
email. -/
theorem updateProfile_keeps_vault (env : Env) (api : Backend)
    (captured : AuthState) (updates : ProfileUpdates)
    (w : World) :
    getItem (updateProfile env api captured updates w).1.storage "basic_email" =
        getItem w.storage "basic_email" ∧
      getItem (updateProfile env api captured updates w).1.storage "basic_password" =
        getItem w.storage "basic_password" ∧
      getCredentials (updateProfile env api captured updates w).1.storage =
        getCredentials w.storage := by
  rcases updateProfile_storage env api captured updates w with hs | ⟨record, hs⟩
  · rw [hs]
    exact ⟨rfl, rfl, rfl⟩
  · rw [hs]
    refine ⟨?_, ?_, ?_⟩ <;> simp [getCredentials, getItem, setItem]

/-! ### The loading flag -/

/-- C25: when an operation has completed, `loading` is false: after `login`,
`logout`, `register`, `updateProfile` and `changePassword`, on every outcome
and from every state, and after every branch of the startup restoration. -/
theorem operations_end_loading (env : Env) (api : Backend)
    (parse : String → Except String (Option Identity)) (credentials : LoginArgs)
    (userData : UserData) (captured : AuthState) (updates : ProfileUpdates) (currentPassword newPassword : String)
    (w : World) :
    (login env api credentials w).1.state.loading = false ∧
      (logout w).state.loading = false ∧
      (register env api userData w).1.state.loading = false ∧
      (updateProfile env api captured updates w).1.state.loading = false ∧
      (changePassword api currentPassword newPassword w).1.state.loading = false ∧
      (checkAuthStatus parse w).state.loading = false := by
  refine ⟨?_, rfl, ?_, ?_, ?_, ?_⟩
  · cases ht : loginTry env api credentials w.storage with
    | error m =>
        rw [login_error env api credentials w m ht]
        rfl
    | ok p =>
        have h2 : loginTry env api credentials
            (issue (dispatch w .LOGIN_START)
              (.getMe credentials.email credentials.password)).storage = .ok p := ht
        unfold login
        simp only [h2]
        rfl
  · unfold register
    cases hr : registerApi api (registerBody userData) with
    | error m => rfl
    | ok created =>
        cases created with
        | null => rfl
        | undefined => rfl
        | object u => rfl
  · cases hc : getCredentials w.storage with
    | none =>
        rw [updateProfile_unloadable env api captured updates w hc]
        rfl
    | some creds =>
        have h2 : getCredentials (dispatch w (.SET_LOADING true)).storage = some creds := hc
        unfold updateProfile
        simp only [h2]
        cases hapi : updateProfileApi api updates.email updates.name updates.phone creds.email
            creds.password with
        | error m => rfl
        | ok updated =>
            cases updated with
            | null => rfl
            | undefined => rfl
            | object u => rfl
  · cases hc : getCredentials w.storage with
    | none =>
        rw [changePassword_no_credentials api currentPassword newPassword w hc]
        rfl
    | some creds =>
        have h2 : getCredentials (dispatch w (.SET_LOADING true)).storage = some creds := hc
        unfold changePassword
        simp only [h2]
        cases hapi : changePasswordApi api currentPassword newPassword creds.email
            creds.password with
        | error m => rfl
        | ok v => rfl
  · unfold checkAuthStatus
    split
    · split
      · split <;> rfl
      · rfl
    · rfl

/-! ### Startup restoration -/

/-- C26: run on the initial state, the startup restoration depends only on
the `user` and `token` slots. When both are present and non-empty and the
record parses, the state becomes the parsed record, authenticated, not
loading, without error; when either is missing or empty, or parsing fails, the
state is anonymous and not loading. In every case the storage, and so the
Vault, is left as it was, no request is issued, and the resulting state is the
same for any other content of the other slots. -/
theorem checkAuthStatus_restores (parse : String → Except String (Option Identity))
    (w : World) (hinit : w.state = initialState) :
    (∀ record token user, getItem w.storage "user" = some record → record ≠ "" →
        getItem w.storage "token" = some token → token ≠ "" → parse record = .ok user →
        (checkAuthStatus parse w).state =
          { user := user, isAuthenticated := true, loading := false, error := none }) ∧
      ((getItem w.storage "user" = none ∨ getItem w.storage "user" = some "" ∨
          getItem w.storage "token" = none ∨ getItem w.storage "token" = some "" ∨
          ∃ record message, getItem w.storage "user" = some record ∧
            parse record = .error message) →
        (checkAuthStatus parse w).state =
          { user := none, isAuthenticated := false, loading := false, error := none }) ∧
      (checkAuthStatus parse w).storage = w.storage ∧
      (checkAuthStatus parse w).requests = w.requests ∧
      (∀ other : World, other.state = w.state →
        getItem other.storage "user" = getItem w.storage "user" →
        getItem other.storage "token" = getItem w.storage "token" →
        (checkAuthStatus parse other).state = (checkAuthStatus parse w).state) := by
  refine ⟨?_, ?_, (checkAuthStatus_frame parse w).1, (checkAuthStatus_frame parse w).2, ?_⟩
  · intro record token user hu hr ht htk hp
    simp [checkAuthStatus, hu, ht, hr, htk, hp, dispatch, authReducer, hinit, initialState]
  · intro h
    have hanon : (dispatch w (.SET_LOADING false)).state =
        { user := none, isAuthenticated := false, loading := false, error := none } := by
      simp [dispatch, authReducer, hinit, initialState]
    rcases h with h | h | h | h | ⟨record, message, h, hp⟩
    · simp only [checkAuthStatus, h]
      exact hanon
    · simp only [checkAuthStatus, h]
      cases getItem w.storage "token" <;> simpa using hanon
    · simp only [checkAuthStatus, h]
      cases getItem w.storage "user" <;> exact hanon
    · simp only [checkAuthStatus, h]
      cases getItem w.storage "user" <;> simpa using hanon
    · simp only [checkAuthStatus, h]
      cases getItem w.storage "token" with
      | none => exact hanon
      | some token =>
          by_cases hc : (record != "" && token != "") = true
          · simp only [hc, hp, if_true]
            exact hanon
          · simp only [hc, if_false]
            exact hanon
  · intro other hs hu ht
    simp only [checkAuthStatus, hu, ht]
    cases getItem w.storage "user" with
    | none => simp [dispatch, hs]
    | some record =>
        cases getItem w.storage "token" with
        | none => simp [dispatch, hs]
        | some token =>
            by_cases hc : (record != "" && token != "") = true
            · simp only [hc, if_true]
              cases parse record <;> simp [dispatch, hs]
            · simp only [hc, if_false]
              simp [dispatch, hs]

/-- C26, at a provider mounted over the storage an earlier login left, and at
one mounted over an empty storage. -/
theorem checkAuthStatus_restores_witness :
    reloadedWorld.state = initialState ∧
      (checkAuthStatus sampleParse reloadedWorld).state =
        { user := some (normalizeLogin sampleEnv (sampleUser (.str "CUSTOMER"))),
          isAuthenticated := true, loading := false, error := none } ∧
      freshWorld.state = initialState ∧ getItem freshWorld.storage "user" = none ∧
      (checkAuthStatus sampleParse freshWorld).state =
        { user := none, isAuthenticated := false, loading := false, error := none } :=
  ⟨rfl,
    (checkAuthStatus_restores sampleParse reloadedWorld rfl).1
      (sampleStringify (normalizeLogin sampleEnv (sampleUser (.str "CUSTOMER")))) "basic"
      (some (normalizeLogin sampleEnv (sampleUser (.str "CUSTOMER")))) (by decide) (by decide)
      (by decide) (by decide) rfl,
    rfl, rfl,
    (checkAuthStatus_restores sampleParse freshWorld rfl).2.1 (Or.inl rfl)⟩

/-- C28: `getStoredCredentials` of the customer API and `getCredentials` of
the provider return the same result on every storage: the same pair, or
`null` in both. -/
theorem getStoredCredentials_eq_getCredentials (storage : Storage) :
    CustomerApi.getStoredCredentials storage = getCredentials storage ∧
      (∀ creds, CustomerApi.getStoredCredentials storage = some creds ↔
        getCredentials storage = some creds) ∧
      (CustomerApi.getStoredCredentials storage = none ↔ getCredentials storage = none) := by
  have h : CustomerApi.getStoredCredentials storage = getCredentials storage := by
    unfold CustomerApi.getStoredCredentials getCredentials
    rfl
  exact ⟨h, fun creds => by rw [h], by rw [h]⟩

end AuthContext

namespace LoanStatus

/-! ### Status labels -/

/-- C27 fails on the code: `getStatusLabel` of the loan-status screen compares
the status in upper case with the legacy constants, which are in lower case, so
each legacy status falls to the `default` branch and is echoed, `submitted` as
`submitted`; the `getStatusLabel` of the notifications screen, whose labels are
upper-case literals, returns the dedicated label. -/
theorem getStatusLabel_legacy_echoed :
    getStatusLabel (some "submitted") = "submitted" ∧
      Notifications.getStatusLabel (some "submitted") = "Submitted" ∧
      legacyLabels.all (fun entry =>
        getStatusLabel (some entry.1) == entry.1 && getStatusLabel (some entry.1) != entry.2 &&
          Notifications.getStatusLabel (some entry.1) == entry.2) = true := by
  decide

/-! ### Status changes -/

section
variable {ι σ τ : Type} [DecidableEq ι] [DecidableEq σ]

/-- One step of the loop appends the expected entry, if there is one. -/
theorem detectStep_eq (oldApps : List (Application ι σ τ)) (changes : List (StatusChange ι σ τ))
    (newApp : Application ι σ τ) :
    detectStep oldApps changes newApp = changes ++ (expectedChange oldApps newApp).toList := by
  unfold detectStep expectedChange
  split
  · rename_i oldApp hfind
    by_cases hs : oldApp.status = newApp.status
    · simp [hs]
    · simp [hs]
  · simp

/-- The loop, started with `changes`, appends the expected entries in the
order of the new applications. -/
theorem foldl_detectStep (oldApps newApps : List (Application ι σ τ))
    (changes : List (StatusChange ι σ τ)) :
    newApps.foldl (detectStep oldApps) changes =
      changes ++ newApps.filterMap (expectedChange oldApps) := by
  induction newApps generalizing changes with
  | nil => simp
  | cons newApp rest ih =>
      rw [List.foldl_cons, ih, detectStep_eq]
      cases h : expectedChange oldApps newApp with
      | none => simp [List.filterMap_cons, h]
      | some change => simp [List.filterMap_cons, h]

/-- An expected entry carries the id of an old application. -/
theorem expectedChange_some (oldApps : List (Application ι σ τ)) (newApp : Application ι σ τ)
    (change : StatusChange ι σ τ) (h : expectedChange oldApps newApp = some change) :
    ∃ oldApp ∈ oldApps, oldApp.id = change.id ∧ oldApp.id = newApp.id ∧
      oldApp.status ≠ newApp.status := by
  unfold expectedChange at h
  split at h
  · rename_i oldApp hfind
    have hmem := List.mem_of_find?_eq_some hfind
    have hid : oldApp.id = newApp.id := by
      have := List.find?_some hfind
      simpa using this
    by_cases hs : oldApp.status = newApp.status
    · simp [hs] at h
    · simp only [hs, if_false, Option.some.injEq] at h
      refine ⟨oldApp, hmem, ?_, hid, hs⟩
      rw [← h]
      exact hid
  · exact Option.noConfusion h

/-- With unique ids, no application of a list has an expected entry against
the list itself. -/
theorem expectedChange_self (apps : List (Application ι σ τ))
    (hnodup : (apps.map (fun app => app.id)).Nodup) (app : Application ι σ τ)
    (hmem : app ∈ apps) : expectedChange apps app = none := by
  cases h : expectedChange apps app with
  | none => rfl
  | some change =>
      obtain ⟨oldApp, hold, -, hid, hs⟩ := expectedChange_some apps app change h
      have heq : oldApp = app := List.inj_on_of_nodup_map hnodup hold hmem hid
      exact absurd (by rw [heq]) hs

end

/-- C30: `detectStatusChanges(oldApps, newApps)` holds, in the order of
`newApps`, one entry `{id, oldStatus, newStatus, loanType}` for each new
application whose id has a first old application with another status, and
nothing else; so every entry has the id of an old application, the result is
not longer than `newApps`, and comparing a list with unique ids against
itself gives no entry. -/
theorem detectStatusChanges_spec {ι σ τ : Type} [DecidableEq ι] [DecidableEq σ]
    (oldApps newApps apps : List (Application ι σ τ)) :
    detectStatusChanges oldApps newApps = newApps.filterMap (expectedChange oldApps) ∧
      (∀ change ∈ detectStatusChanges oldApps newApps,
        ∃ oldApp ∈ oldApps, oldApp.id = change.id) ∧
      (detectStatusChanges oldApps newApps).length ≤ newApps.length ∧
      ((apps.map (fun app => app.id)).Nodup → detectStatusChanges apps apps = []) := by
  have heq : ∀ olds news : List (Application ι σ τ),
      detectStatusChanges olds news = news.filterMap (expectedChange olds) := by
    intro olds news
    unfold detectStatusChanges
    rw [foldl_detectStep]
    simp
  refine ⟨heq oldApps newApps, ?_, ?_, ?_⟩
  · intro change hmem
    rw [heq, List.mem_filterMap] at hmem
    obtain ⟨newApp, -, hchange⟩ := hmem
    obtain ⟨oldApp, hold, hid, -, -⟩ := expectedChange_some oldApps newApp change hchange
    exact ⟨oldApp, hold, hid⟩
  · rw [heq]
    exact List.length_filterMap_le _ _
  · intro hnodup
    rw [heq]
    apply List.filterMap_eq_nil_iff.2
    intro app hmem
    exact expectedChange_self apps hnodup app hmem

/-- C30, at two polls of three applications. -/
theorem detectStatusChanges_spec_witness :
    detectStatusChanges
        [({ id := 1, status := "PENDING", loanType := "home" } : Application Nat String String),
          { id := 2, status := "PENDING", loanType := "car" }]
        [{ id := 2, status := "APPROVED", loanType := "car" },
          { id := 3, status := "PENDING", loanType := "gold" },
          { id := 1, status := "PENDING", loanType := "home" }] =
        [{ id := 2, oldStatus := "PENDING", newStatus := "APPROVED", loanType := "car" }] ∧
      (List.map (fun app => app.id)
        [({ id := 1, status := "PENDING", loanType := "home" } : Application Nat String String),
          { id := 2, status := "PENDING", loanType := "car" }]).Nodup ∧
      detectStatusChanges
        [({ id := 1, status := "PENDING", loanType := "home" } : Application Nat String String),
          { id := 2, status := "PENDING", loanType := "car" }]
        [({ id := 1, status := "PENDING", loanType := "home" } : Application Nat String String),
          { id := 2, status := "PENDING", loanType := "car" }] = [] :=
  ⟨by decide, by decide,
    (detectStatusChanges_spec
      [({ id := 1, status := "PENDING", loanType := "home" } : Application Nat String String),
        { id := 2, status := "PENDING", loanType := "car" }]
      [{ id := 2, status := "APPROVED", loanType := "car" },
        { id := 3, status := "PENDING", loanType := "gold" },
        { id := 1, status := "PENDING", loanType := "home" }]
      [({ id := 1, status := "PENDING", loanType := "home" } : Application Nat String String),
        { id := 2, status := "PENDING", loanType := "car" }]).2.2.2 (by decide)⟩

end LoanStatus
